import Mathlib

/-!
Verification of the tightrope-walker locomotion controller.

This file is a shallow embedding of the step-based `Character` class
(the rope locomotion state machine, step scheduler, balance integrator
and difficulty scaler) together with the `Physics` helper class.
JavaScript numbers are modelled as rationals; every call to
`Math.random()` and the single call to `Math.sqrt` are modelled as
explicit oracle inputs so that update trajectories are deterministic
functions of the oracle and the `dt` stream.  Rendering-only state
(Three.js meshes, arm/leg rotations, world-space placement) is not part
of the model; every field below corresponds to a mutable field of the
source class that the locomotion logic reads or writes.
-/

namespace TightropeWalker

/-- The `state` field of the character: IDLE, WALKING, BALANCING, FALLING. -/
inductive CState where
  | IDLE
  | WALKING
  | BALANCING
  | FALLING
deriving DecidableEq, Repr

/-- The `poleHoldMode` field: ONE_HAND or TWO_HAND. -/
inductive PoleHold where
  | ONE_HAND
  | TWO_HAND
deriving DecidableEq, Repr

/-- The `platformMovement` flag record (W/S/A/D/Q/E keys). -/
structure PlatformMovement where
  forward : Bool
  backward : Bool
  left : Bool
  right : Bool
  rotateLeft : Bool
  rotateRight : Bool
deriving DecidableEq, Repr

/-- The mutable locomotion state of the `Character` class.  Fields keep
the source names.  `position` is the progress along the rope in [0,1]
(`ropeProgress` in the specification). -/
structure Character where
  balance : ℚ
  speed : ℚ
  position : ℚ
  state : CState
  isOnPlatform : Bool
  isMovingForward : Bool
  takingStep : Bool
  stepTimer : ℚ
  stepStartPosition : ℚ
  stepTargetPosition : ℚ
  balanceForce : ℚ
  windEffect : ℚ
  balanceNoiseTimer : ℚ
  balanceDifficulty : ℚ
  totalStepsTaken : ℕ
  poleHoldMode : PoleHold
  platformMovement : PlatformMovement
deriving DecidableEq, Repr

/-- Constructor defaults: `stepDistance = 0.03`. -/
def stepDistance : ℚ := 3 / 100

/-- Constructor defaults: `stepTime = 0.5` seconds per step. -/
def stepTime : ℚ := 1 / 2

/-- Constructor defaults: `balanceRecoveryRate = 0.7` (the step-based
class field, used while standing on the rope). -/
def balanceRecoveryRate : ℚ := 7 / 10

/-- Constructor defaults: `movementBalanceEffect = 0.1`. -/
def movementBalanceEffect : ℚ := 1 / 10

/-- Constructor defaults: `balanceNoiseInterval = 0.5` seconds. -/
def balanceNoiseInterval : ℚ := 1 / 2

/-- Constructor defaults: `balanceNoiseMagnitude = 0.01`. -/
def balanceNoiseMagnitude : ℚ := 1 / 100

/-- Constructor defaults: `maxBalanceDifficulty = 4`. -/
def maxBalanceDifficulty : ℚ := 4

/-- Oracle for the external real-valued calls made during one `update`:
the three `Math.random()` draws (each in [0,1) in JavaScript) and the
value of `Math.sqrt(this.balanceDifficulty)` used by the player-force
line.  Theorems constrain these inputs exactly where the source
constrains them. -/
structure Oracle where
  stepRand : ℚ
  wobbleRand : ℚ
  noiseRand : ℚ
  sqrtDifficulty : ℚ
deriving DecidableEq, Repr

/-- The oracle whose random draws are all 1/2 (so every centred
disturbance `rand - 0.5` vanishes) and whose square root of the
difficulty is 1 (exact while the difficulty is 1). -/
def oracleHalf : Oracle :=
  { stepRand := 1 / 2, wobbleRand := 1 / 2, noiseRand := 1 / 2, sqrtDifficulty := 1 }

/-- The `Math.sign` function. -/
def mathSign (x : ℚ) : ℚ :=
  if 0 < x then 1 else if x < 0 then -1 else 0

/-- Source `easeInOutQuad(t)`: `t < 0.5 ? 2*t*t : 1 - Math.pow(-2*t + 2, 2) / 2`. -/
def easeInOutQuad (t : ℚ) : ℚ :=
  if t < 1 / 2 then 2 * t * t else 1 - (-2 * t + 2) ^ 2 / 2

/-- The target difficulty ramp computed in `startNewStep` once
`totalStepsTaken > 5`:
`1 + min(max-1, (steps/20) * (max-1))`. -/
def targetDifficulty (steps : ℕ) : ℚ :=
  1 + min (maxBalanceDifficulty - 1) ((steps : ℚ) / 20 * (maxBalanceDifficulty - 1))

/-- Source `startNewStep()`: begin a step, apply the per-step balance
disturbance, bump the step counter and ramp the difficulty. -/
def startNewStep (o : Oracle) (c : Character) : Character :=
  let c := { c with
    takingStep := true
    stepTimer := 0
    stepStartPosition := c.position
    stepTargetPosition := min 1 (c.position + stepDistance)
    state := CState.WALKING }
  let stepDisturbance := movementBalanceEffect * c.balanceDifficulty
  let randomDirection := o.stepRand - 1 / 2 + c.windEffect * (1 / 5)
  let c := { c with balance := c.balance + stepDisturbance * randomDirection }
  let c := { c with totalStepsTaken := c.totalStepsTaken + 1 }
  if 5 < c.totalStepsTaken then
    let targetD := targetDifficulty c.totalStepsTaken
    { c with balanceDifficulty := min (c.balanceDifficulty + 1 / 5) targetD }
  else c

/-- Source `updateState()`: recompute `state` from `takingStep` and `|balance|`
(no-op on a platform; an already-FALLING state is kept). -/
def updateState (c : Character) : Character :=
  if c.isOnPlatform = true then c
  else if c.state = CState.FALLING then c
  else if c.takingStep = true then { c with state := CState.WALKING }
  else if 9 / 10 < |c.balance| then { c with state := CState.FALLING }
  else if 1 / 2 < |c.balance| then { c with state := CState.BALANCING }
  else { c with state := CState.IDLE }

/-- Source `transitionToEndPlatform()` (state fields only; world-space
placement of the model is rendering geometry and outside the model). -/
def transitionToEndPlatform (c : Character) : Character :=
  { c with
    isOnPlatform := true
    position := 1
    balance := 0
    state := CState.IDLE
    balanceForce := 0
    isMovingForward := false
    takingStep := false
    totalStepsTaken := 0
    balanceDifficulty := 1 }

/-- The guarded call shared by both halves of the movement block:
`if (isMovingForward && position < 0.98) startNewStep()`. -/
def newStepCheck (o : Oracle) (c : Character) : Character :=
  if c.isMovingForward = true ∧ c.position < 98 / 100 then startNewStep o c else c

/-- The standing-still recovery statement:
`if (|balance| > 0.1) balance += -sign(balance) * balanceRecoveryRate * dt`. -/
def balanceRecoveryStep (dt : ℚ) (c : Character) : Character :=
  if 1 / 10 < |c.balance| then
    { c with balance := c.balance + -mathSign c.balance * balanceRecoveryRate * dt }
  else c

/-- The idle difficulty decay statement:
`if (!takingStep && stepTimer > 2.0)
   balanceDifficulty = max(1, balanceDifficulty - dt * 0.3)`. -/
def difficultyDecayStep (dt : ℚ) (c : Character) : Character :=
  if c.takingStep = false ∧ 2 < c.stepTimer then
    { c with balanceDifficulty := max 1 (c.balanceDifficulty - dt * (3 / 10)) }
  else c

/-- The idle state derivation closing the non-stepping branch:
`state = |balance| > 0.3 ? BALANCING : IDLE`. -/
def idleStateStep (c : Character) : Character :=
  if 3 / 10 < |c.balance| then { c with state := CState.BALANCING }
  else { c with state := CState.IDLE }

/-- The step-based movement block of `update` (its first half: the
`takingStep` branch, else the new-step / recovery / difficulty-decay /
state statements in source order). -/
def stepMovementPhase (o : Oracle) (dt : ℚ) (c : Character) : Character :=
  if c.takingStep = true then
    let stepTimer := c.stepTimer + dt
    let stepProgress := min 1 (stepTimer / stepTime)
    let easedProgress := easeInOutQuad stepProgress
    let c := { c with
      stepTimer := stepTimer
      position := c.stepStartPosition +
        (c.stepTargetPosition - c.stepStartPosition) * easedProgress }
    if 1 ≤ stepProgress then
      let c := { c with takingStep := false }
      let c :=
        if c.isMovingForward = true ∧ c.position < 98 / 100 then startNewStep o c
        else { c with state := CState.BALANCING }
      if 10 < c.totalStepsTaken then
        let endStepWobble := 3 / 100 * c.balanceDifficulty
        { c with balance := c.balance + (o.wobbleRand - 1 / 2) * endStepWobble }
      else c
    else c
  else
    idleStateStep (difficultyDecayStep dt (balanceRecoveryStep dt (newStepCheck o c)))

/-- The periodic balance-noise block of `update` (timer accumulates in
simulation time; on firing, a centred random term and a wind-biased term
are added, both scaled by the difficulty). -/
def balanceNoisePhase (o : Oracle) (dt : ℚ) (c : Character) : Character :=
  let c := { c with balanceNoiseTimer := c.balanceNoiseTimer + dt }
  if balanceNoiseInterval ≤ c.balanceNoiseTimer then
    let c := { c with balanceNoiseTimer := 0 }
    let randomNoise := (o.noiseRand - 1 / 2) * balanceNoiseMagnitude * c.balanceDifficulty
    let windNoise := c.windEffect * balanceNoiseMagnitude * (2 / 5) * c.balanceDifficulty
    { c with balance := c.balance + randomNoise + windNoise }
  else c

/-- The player-force line of `update`:
`balance += (balanceForce * dt * 2) / (Math.sqrt(balanceDifficulty) * 0.6)`. -/
def playerForcePhase (o : Oracle) (dt : ℚ) (c : Character) : Character :=
  { c with balance := c.balance + c.balanceForce * dt * 2 / (o.sqrtDifficulty * (3 / 5)) }

/-- The direct wind line of `update`:
`balance += windEffect * dt * 0.3 * balanceDifficulty`. -/
def windForcePhase (dt : ℚ) (c : Character) : Character :=
  { c with balance := c.balance + c.windEffect * dt * (3 / 10) * c.balanceDifficulty }

/-- The clamp line of `update`: `balance = Math.max(-1, Math.min(1, balance))`. -/
def clampBalancePhase (c : Character) : Character :=
  { c with balance := max (-1) (min 1 c.balance) }

/-- The trailing timer line of `update`:
`if (!takingStep) stepTimer += dt`. -/
def stepTimerPhase (dt : ℚ) (c : Character) : Character :=
  if c.takingStep = false then { c with stepTimer := c.stepTimer + dt } else c

/-- The trailing end-of-rope check of `update`:
`if (position >= 0.98) transitionToEndPlatform()`. -/
def endCheckPhase (c : Character) : Character :=
  if 98 / 100 ≤ c.position then transitionToEndPlatform c else c

/-- Source `Character.update(deltaTime)`.  On a platform the rope logic is
skipped entirely (the platform branch moves the model in world space and
runs the transition gate, which is modelled separately as
`ropeTransitionFires`).  On the rope the phases run in source order. -/
def update (o : Oracle) (dt : ℚ) (c : Character) : Character :=
  if c.isOnPlatform = true then c
  else
    endCheckPhase (stepTimerPhase dt (updateState (clampBalancePhase
      (windForcePhase dt (playerForcePhase o dt
        (balanceNoisePhase o dt (stepMovementPhase o dt c)))))))

/-- Iterated `update` with a fixed oracle and a fixed `dt`. -/
def updateN (o : Oracle) (dt : ℚ) : ℕ → Character → Character
  | 0, c => c
  | n + 1, c => updateN o dt n (update o dt c)

/-- Source `adjustBalance(direction)`: sets the player lean force, but only on
the rope (the platform branch touches nothing). -/
def adjustBalance (direction : ℚ) (c : Character) : Character :=
  if c.isOnPlatform = false then { c with balanceForce := direction } else c

/-- Source `moveForward()` (W pressed). -/
def moveForward (c : Character) : Character :=
  if c.isOnPlatform = true then
    { c with platformMovement.forward := true, state := CState.WALKING }
  else { c with isMovingForward := true }

/-- Source `stopMoving()` (W released). -/
def stopMoving (c : Character) : Character :=
  if c.isOnPlatform = true then
    let c := { c with platformMovement.forward := false }
    if (c.platformMovement.forward || c.platformMovement.backward ||
        c.platformMovement.left || c.platformMovement.right) = false then
      { c with state := CState.IDLE }
    else c
  else
    let c := { c with isMovingForward := false }
    if c.takingStep = false then { c with state := CState.BALANCING } else c

/-- Source `moveBackward()` (S pressed): platform only, no backward movement on
the rope. -/
def moveBackward (c : Character) : Character :=
  if c.isOnPlatform = true then
    { c with platformMovement.backward := true, state := CState.WALKING }
  else c

/-- Source `stopMovingBackward()` (S released). -/
def stopMovingBackward (c : Character) : Character :=
  if c.isOnPlatform = true then
    let c := { c with platformMovement.backward := false }
    if (c.platformMovement.forward || c.platformMovement.backward ||
        c.platformMovement.left || c.platformMovement.right) = false then
      { c with state := CState.IDLE }
    else c
  else c

/-- Source `moveLeft()` (A pressed): platform strafe, or on the rope the call
is routed to `adjustBalance(-1)`. -/
def moveLeft (c : Character) : Character :=
  if c.isOnPlatform = true then
    { c with platformMovement.left := true, state := CState.WALKING }
  else adjustBalance (-1) c

/-- Source `stopMovingLeft()` (A released). -/
def stopMovingLeft (c : Character) : Character :=
  if c.isOnPlatform = true then
    let c := { c with platformMovement.left := false }
    if (c.platformMovement.forward || c.platformMovement.backward ||
        c.platformMovement.left || c.platformMovement.right) = false then
      { c with state := CState.IDLE }
    else c
  else adjustBalance 0 c

/-- Source `moveRight()` (D pressed): platform strafe, or on the rope the call
is routed to `adjustBalance(1)`. -/
def moveRight (c : Character) : Character :=
  if c.isOnPlatform = true then
    { c with platformMovement.right := true, state := CState.WALKING }
  else adjustBalance 1 c

/-- Source `stopMovingRight()` (D released). -/
def stopMovingRight (c : Character) : Character :=
  if c.isOnPlatform = true then
    let c := { c with platformMovement.right := false }
    if (c.platformMovement.forward || c.platformMovement.backward ||
        c.platformMovement.left || c.platformMovement.right) = false then
      { c with state := CState.IDLE }
    else c
  else adjustBalance 0 c

/-- Source `rotateLeft()` (Q pressed). -/
def rotateLeft (c : Character) : Character :=
  if c.isOnPlatform = true then { c with platformMovement.rotateLeft := true } else c

/-- Source `stopRotatingLeft()` (Q released). -/
def stopRotatingLeft (c : Character) : Character :=
  if c.isOnPlatform = true then { c with platformMovement.rotateLeft := false } else c

/-- Source `rotateRight()` (E pressed). -/
def rotateRight (c : Character) : Character :=
  if c.isOnPlatform = true then { c with platformMovement.rotateRight := true } else c

/-- Source `stopRotatingRight()` (E released). -/
def stopRotatingRight (c : Character) : Character :=
  if c.isOnPlatform = true then { c with platformMovement.rotateRight := false } else c

/-- Source `setWindEffect(windForce)`. -/
def setWindEffect (w : ℚ) (c : Character) : Character :=
  { c with windEffect := w }

/-- Source `resetPosition()`: the restart command.  It resets position,
balance, speed, state, lean force, mode, forward intent, wind effect,
the four translation flags and the pole mode — and nothing else:
`takingStep`, `stepTimer`, `balanceNoiseTimer`, `balanceDifficulty`,
`totalStepsTaken` and the two rotation flags keep their prior values. -/
def resetPosition (c : Character) : Character :=
  { c with
    position := 0
    balance := 0
    speed := 0
    state := CState.IDLE
    balanceForce := 0
    isOnPlatform := true
    isMovingForward := false
    windEffect := 0
    platformMovement := { c.platformMovement with
      forward := false, backward := false, left := false, right := false }
    poleHoldMode := PoleHold.ONE_HAND }

/-- Source `transitionToRope()`: the platform-to-rope mode switch (state fields
only; world placement is rendering geometry). -/
def transitionToRope (o : Oracle) (c : Character) : Character :=
  let c := { c with poleHoldMode := PoleHold.TWO_HAND }
  let c := { c with
    isOnPlatform := false
    position := 0
    balance := 0
    state := CState.WALKING }
  let c := { c with platformMovement := { c.platformMovement with
    forward := false, backward := false, left := false, right := false,
    rotateLeft := false, rotateRight := false } }
  let c := { c with isMovingForward := true }
  startNewStep o c

/-- Source `Physics.applyForces` from the `Physics` helper class (wind, a
movement penalty driven by `speed`, natural recovery at the physics
rate, then a clamp), active only in the WALKING and BALANCING states.
The wind sample and the physics recovery rate are explicit inputs. -/
def applyForces (windForce windDirection physRecoveryRate dt : ℚ)
    (c : Character) : Character :=
  if c.state = CState.WALKING ∨ c.state = CState.BALANCING then
    let b := c.balance + windForce * windDirection * dt
    let b := b + c.speed * (if 0 < b then 1 / 10 else -(1 / 10)) * dt
    let b :=
      if 0 < b then b - physRecoveryRate * dt
      else if b < 0 then b + physRecoveryRate * dt
      else b
    { c with balance := max (-1) (min 1 b) }
  else c

/-- The state built by the `Character` constructor (locomotion fields). -/
def initialCharacter : Character :=
  { balance := 0
    speed := 0
    position := 0
    state := CState.IDLE
    isOnPlatform := true
    isMovingForward := false
    takingStep := false
    stepTimer := 0
    stepStartPosition := 0
    stepTargetPosition := 0
    balanceForce := 0
    windEffect := 0
    balanceNoiseTimer := 0
    balanceDifficulty := 1
    totalStepsTaken := 0
    poleHoldMode := PoleHold.ONE_HAND
    platformMovement :=
      { forward := false, backward := false, left := false, right := false,
        rotateLeft := false, rotateRight := false } }

/-- Reachable character states: the constructor state, closed under a
frame update with `dt ≥ 0`, the per-frame physics pass, both mode
switches, the restart command, and every input command. -/
inductive Reachable : Character → Prop where
  | init : Reachable initialCharacter
  | update (o : Oracle) (dt : ℚ) (c : Character) :
      0 ≤ dt → Reachable c → Reachable (update o dt c)
  | applyForces (wf wd rr dt : ℚ) (c : Character) :
      0 ≤ dt → Reachable c → Reachable (applyForces wf wd rr dt c)
  | transitionToRope (o : Oracle) (c : Character) :
      Reachable c → Reachable (transitionToRope o c)
  | resetPosition (c : Character) : Reachable c → Reachable (resetPosition c)
  | adjustBalance (d : ℚ) (c : Character) :
      Reachable c → Reachable (adjustBalance d c)
  | setWindEffect (w : ℚ) (c : Character) :
      Reachable c → Reachable (setWindEffect w c)
  | moveForward (c : Character) : Reachable c → Reachable (moveForward c)
  | stopMoving (c : Character) : Reachable c → Reachable (stopMoving c)
  | moveBackward (c : Character) : Reachable c → Reachable (moveBackward c)
  | stopMovingBackward (c : Character) :
      Reachable c → Reachable (stopMovingBackward c)
  | moveLeft (c : Character) : Reachable c → Reachable (moveLeft c)
  | stopMovingLeft (c : Character) : Reachable c → Reachable (stopMovingLeft c)
  | moveRight (c : Character) : Reachable c → Reachable (moveRight c)
  | stopMovingRight (c : Character) : Reachable c → Reachable (stopMovingRight c)
  | rotateLeft (c : Character) : Reachable c → Reachable (rotateLeft c)
  | stopRotatingLeft (c : Character) :
      Reachable c → Reachable (stopRotatingLeft c)
  | rotateRight (c : Character) : Reachable c → Reachable (rotateRight c)
  | stopRotatingRight (c : Character) :
      Reachable c → Reachable (stopRotatingRight c)

/-- The geometric readings `checkRopeProximity` computes each platform
frame before deciding a rope transition: the forward intent flag, the
distance from the platform position to the rope start point, the dot
product of the facing vector with the normalized vector to the rope, and
the angle in degrees obtained from that dot product through `Math.acos`.
The arccosine itself is transcendental, so the angle is carried as an
input; theorems assume only its antitone link to the dot product. -/
structure GateInput where
  forward : Bool
  distanceToRopeStart : ℚ
  angleToDegrees : ℚ
  dotProduct : ℚ
deriving DecidableEq, Repr

/-- Predicate `facingRope`: `dotProduct > 0.5`. -/
def facingRope (g : GateInput) : Prop := 1 / 2 < g.dotProduct

/-- Predicate `onRopeEdge` as recomputed by `checkRopeProximity`:
`distance < 2.5 && facingRope`, forced to true when `distance < 1.0`. -/
def onRopeEdge (g : GateInput) : Prop :=
  (g.distanceToRopeStart < 5 / 2 ∧ facingRope g) ∨ g.distanceToRopeStart < 1

/-- The platform-to-rope transition decision at the end of
`checkRopeProximity`: `transitionToRope()` runs exactly when
`forward && (onRopeEdge || distance < 2.0)` and
`distance < 2.5 && (angle < 45 || distance < 1.0)`. -/
def ropeTransitionFires (g : GateInput) : Prop :=
  g.forward = true ∧ (onRopeEdge g ∨ g.distanceToRopeStart < 2) ∧
    (g.distanceToRopeStart < 5 / 2 ∧
      (g.angleToDegrees < 45 ∨ g.distanceToRopeStart < 1))

/-- The forced transition inside `constrainToPlatform`: when the
distance to the rope is below 1.5 the edge constraint is skipped, and
with forward intent and distance below 1.0 `transitionToRope()` runs. -/
def constrainRopeTransition (forward : Bool) (distanceToRope : ℚ) : Prop :=
  distanceToRope < 3 / 2 ∧ (forward = true ∧ distanceToRope < 1)

instance (g : GateInput) : Decidable (facingRope g) := by
  unfold facingRope; infer_instance

instance (g : GateInput) : Decidable (onRopeEdge g) := by
  unfold onRopeEdge; infer_instance

instance (g : GateInput) : Decidable (ropeTransitionFires g) := by
  unfold ropeTransitionFires; infer_instance

instance (f : Bool) (d : ℚ) : Decidable (constrainRopeTransition f d) := by
  unfold constrainRopeTransition; infer_instance

/-! ### Elementary facts about the easing curve and the difficulty ramp -/

lemma easeInOutQuad_zero : easeInOutQuad 0 = 0 := by norm_num [easeInOutQuad]

lemma easeInOutQuad_one : easeInOutQuad 1 = 1 := by norm_num [easeInOutQuad]

lemma easeInOutQuad_nonneg {t : ℚ} (h0 : 0 ≤ t) (h1 : t ≤ 1) :
    0 ≤ easeInOutQuad t := by
  unfold easeInOutQuad; split <;> nlinarith

lemma easeInOutQuad_le_one {t : ℚ} (h0 : 0 ≤ t) (h1 : t ≤ 1) :
    easeInOutQuad t ≤ 1 := by
  unfold easeInOutQuad; split <;> nlinarith

lemma easeInOutQuad_mono {a b : ℚ} (h0 : 0 ≤ a) (hab : a ≤ b) (h1 : b ≤ 1) :
    easeInOutQuad a ≤ easeInOutQuad b := by
  unfold easeInOutQuad
  split <;> split <;> nlinarith

lemma one_le_targetDifficulty (n : ℕ) : 1 ≤ targetDifficulty n := by
  unfold targetDifficulty maxBalanceDifficulty
  have h : (0 : ℚ) ≤ min (4 - 1) ((n : ℚ) / 20 * (4 - 1)) :=
    le_min (by norm_num) (by positivity)
  linarith

lemma targetDifficulty_le_max (n : ℕ) :
    targetDifficulty n ≤ maxBalanceDifficulty := by
  unfold targetDifficulty maxBalanceDifficulty
  have h := min_le_left ((4 : ℚ) - 1) ((n : ℚ) / 20 * (4 - 1))
  linarith

lemma targetDifficulty_mono {m n : ℕ} (h : m ≤ n) :
    targetDifficulty m ≤ targetDifficulty n := by
  unfold targetDifficulty
  have hmn : (m : ℚ) ≤ (n : ℚ) := by exact_mod_cast h
  have hc : (0 : ℚ) ≤ maxBalanceDifficulty - 1 := by
    unfold maxBalanceDifficulty; norm_num
  gcongr

/-! ### The controller invariant -/

/-- Invariant maintained by every reachable state: rope progress stays
in [0,1], an in-flight step satisfies
`0 ≤ startProgress ≤ targetProgress ≤ 1`, the step timer is
nonnegative, the difficulty sits between 1 and the current ramp target,
and — while a step is in flight on the rope — `position` equals the
eased interpolation of that step at the current timer. -/
def Inv (c : Character) : Prop :=
  0 ≤ c.position ∧ c.position ≤ 1 ∧
  0 ≤ c.stepStartPosition ∧ c.stepStartPosition ≤ c.stepTargetPosition ∧
  c.stepTargetPosition ≤ 1 ∧ 0 ≤ c.stepTimer ∧
  1 ≤ c.balanceDifficulty ∧
  c.balanceDifficulty ≤ targetDifficulty c.totalStepsTaken ∧
  (c.isOnPlatform = false → c.takingStep = true →
    c.position = c.stepStartPosition +
      (c.stepTargetPosition - c.stepStartPosition) *
        easeInOutQuad (min 1 (c.stepTimer / stepTime)))

lemma inv_of_fields (c c' : Character)
    (hp : c'.position = c.position)
    (hs : c'.stepStartPosition = c.stepStartPosition)
    (ht : c'.stepTargetPosition = c.stepTargetPosition)
    (htm : c'.stepTimer = c.stepTimer)
    (hts : c'.takingStep = c.takingStep)
    (hbd : c'.balanceDifficulty = c.balanceDifficulty)
    (hn : c'.totalStepsTaken = c.totalStepsTaken)
    (hop : c'.isOnPlatform = false → c.isOnPlatform = false)
    (h : Inv c) : Inv c' := by
  obtain ⟨h1, h2, h3, h4, h5, h6, h7, h8, h9⟩ := h
  refine ⟨?_, ?_, ?_, ?_, ?_, ?_, ?_, ?_, ?_⟩
  · rw [hp]; exact h1
  · rw [hp]; exact h2
  · rw [hs]; exact h3
  · rw [hs, ht]; exact h4
  · rw [ht]; exact h5
  · rw [htm]; exact h6
  · rw [hbd]; exact h7
  · rw [hbd, hn]; exact h8
  · intro hf hstep
    rw [hp, hs, ht, htm]
    exact h9 (hop hf) (by rw [← hts]; exact hstep)

/-! ### The invariant is preserved by every command -/

lemma inv_adjustBalance (d : ℚ) (c : Character) (h : Inv c) :
    Inv (adjustBalance d c) := by
  unfold adjustBalance; split
  · exact inv_of_fields c _ rfl rfl rfl rfl rfl rfl rfl (fun hf => hf) h
  · exact h

lemma inv_setWindEffect (w : ℚ) (c : Character) (h : Inv c) :
    Inv (setWindEffect w c) :=
  inv_of_fields c _ rfl rfl rfl rfl rfl rfl rfl (fun hf => hf) h

lemma inv_moveForward (c : Character) (h : Inv c) : Inv (moveForward c) := by
  unfold moveForward; split <;>
    exact inv_of_fields c _ rfl rfl rfl rfl rfl rfl rfl (fun hf => hf) h

lemma inv_stopMoving (c : Character) (h : Inv c) : Inv (stopMoving c) := by
  unfold stopMoving
  split <;> dsimp only <;> split <;>
    exact inv_of_fields c _ rfl rfl rfl rfl rfl rfl rfl (fun hf => hf) h

lemma inv_moveBackward (c : Character) (h : Inv c) : Inv (moveBackward c) := by
  unfold moveBackward; split
  · exact inv_of_fields c _ rfl rfl rfl rfl rfl rfl rfl (fun hf => hf) h
  · exact h

lemma inv_stopMovingBackward (c : Character) (h : Inv c) :
    Inv (stopMovingBackward c) := by
  unfold stopMovingBackward
  split
  · dsimp only
    split <;>
      exact inv_of_fields c _ rfl rfl rfl rfl rfl rfl rfl (fun hf => hf) h
  · exact h

lemma inv_moveLeft (c : Character) (h : Inv c) : Inv (moveLeft c) := by
  unfold moveLeft; split
  · exact inv_of_fields c _ rfl rfl rfl rfl rfl rfl rfl (fun hf => hf) h
  · exact inv_adjustBalance _ c h

lemma inv_stopMovingLeft (c : Character) (h : Inv c) :
    Inv (stopMovingLeft c) := by
  unfold stopMovingLeft
  split
  · dsimp only
    split <;>
      exact inv_of_fields c _ rfl rfl rfl rfl rfl rfl rfl (fun hf => hf) h
  · exact inv_adjustBalance _ c h

lemma inv_moveRight (c : Character) (h : Inv c) : Inv (moveRight c) := by
  unfold moveRight; split
  · exact inv_of_fields c _ rfl rfl rfl rfl rfl rfl rfl (fun hf => hf) h
  · exact inv_adjustBalance _ c h

lemma inv_stopMovingRight (c : Character) (h : Inv c) :
    Inv (stopMovingRight c) := by
  unfold stopMovingRight
  split
  · dsimp only
    split <;>
      exact inv_of_fields c _ rfl rfl rfl rfl rfl rfl rfl (fun hf => hf) h
  · exact inv_adjustBalance _ c h

lemma inv_rotateLeft (c : Character) (h : Inv c) : Inv (rotateLeft c) := by
  unfold rotateLeft; split
  · exact inv_of_fields c _ rfl rfl rfl rfl rfl rfl rfl (fun hf => hf) h
  · exact h

lemma inv_stopRotatingLeft (c : Character) (h : Inv c) :
    Inv (stopRotatingLeft c) := by
  unfold stopRotatingLeft; split
  · exact inv_of_fields c _ rfl rfl rfl rfl rfl rfl rfl (fun hf => hf) h
  · exact h

lemma inv_rotateRight (c : Character) (h : Inv c) : Inv (rotateRight c) := by
  unfold rotateRight; split
  · exact inv_of_fields c _ rfl rfl rfl rfl rfl rfl rfl (fun hf => hf) h
  · exact h

lemma inv_stopRotatingRight (c : Character) (h : Inv c) :
    Inv (stopRotatingRight c) := by
  unfold stopRotatingRight; split
  · exact inv_of_fields c _ rfl rfl rfl rfl rfl rfl rfl (fun hf => hf) h
  · exact h

lemma inv_applyForces (wf wd rr dt : ℚ) (c : Character) (h : Inv c) :
    Inv (applyForces wf wd rr dt c) := by
  unfold applyForces; split
  · exact inv_of_fields c _ rfl rfl rfl rfl rfl rfl rfl (fun hf => hf) h
  · exact h

lemma inv_resetPosition (c : Character) (h : Inv c) :
    Inv (resetPosition c) := by
  obtain ⟨h1, h2, h3, h4, h5, h6, h7, h8, h9⟩ := h
  exact ⟨le_refl 0, by show (0 : ℚ) ≤ 1; norm_num, h3, h4, h5, h6, h7, h8,
    fun hf => nomatch hf⟩

/-! ### The invariant is preserved by the step scheduler and the frame update -/

lemma inv_startNewStep (o : Oracle) (c : Character)
    (hpos0 : 0 ≤ c.position) (hpos1 : c.position ≤ 1)
    (hbd1 : 1 ≤ c.balanceDifficulty)
    (hbd2 : c.balanceDifficulty ≤ targetDifficulty c.totalStepsTaken) :
    Inv (startNewStep o c) := by
  have hsync : c.position = c.position +
      (min 1 (c.position + stepDistance) - c.position) *
        easeInOutQuad (min 1 ((0 : ℚ) / stepTime)) := by
    rw [zero_div, min_eq_right (by norm_num : (0 : ℚ) ≤ 1), easeInOutQuad_zero,
      mul_zero, add_zero]
  have htarget : c.position ≤ min 1 (c.position + stepDistance) :=
    le_min hpos1 (by unfold stepDistance; linarith)
  unfold startNewStep
  dsimp only
  split
  · refine ⟨hpos0, hpos1, hpos0, htarget, min_le_left _ _, le_refl 0, ?_, ?_,
      fun _ _ => hsync⟩
    · exact le_min (by linarith) (one_le_targetDifficulty _)
    · exact min_le_right _ _
  · exact ⟨hpos0, hpos1, hpos0, htarget, min_le_left _ _, le_refl 0, hbd1,
      hbd2.trans (targetDifficulty_mono (Nat.le_succ _)), fun _ _ => hsync⟩

lemma inv_transitionToRope (o : Oracle) (c : Character) (h : Inv c) :
    Inv (transitionToRope o c) := by
  obtain ⟨h1, h2, h3, h4, h5, h6, h7, h8, h9⟩ := h
  unfold transitionToRope
  dsimp only
  exact inv_startNewStep o _ (le_refl 0) (by show (0 : ℚ) ≤ 1; norm_num) h7 h8

lemma inv_transitionToEndPlatform (c : Character) (h : Inv c) :
    Inv (transitionToEndPlatform c) := by
  obtain ⟨h1, h2, h3, h4, h5, h6, h7, h8, h9⟩ := h
  refine ⟨by show (0 : ℚ) ≤ 1; norm_num, le_refl 1, h3, h4, h5, h6, le_refl 1,
    ?_, fun hf => nomatch hf⟩
  show (1 : ℚ) ≤ targetDifficulty 0
  exact one_le_targetDifficulty 0

lemma inv_newStepCheck (o : Oracle) (c : Character) (h : Inv c) :
    Inv (newStepCheck o c) := by
  unfold newStepCheck; split
  · obtain ⟨h1, h2, h3, h4, h5, h6, h7, h8, h9⟩ := h
    exact inv_startNewStep o c h1 h2 h7 h8
  · exact h

lemma inv_balanceRecoveryStep (dt : ℚ) (c : Character) (h : Inv c) :
    Inv (balanceRecoveryStep dt c) := by
  unfold balanceRecoveryStep; split
  · exact inv_of_fields c _ rfl rfl rfl rfl rfl rfl rfl (fun hf => hf) h
  · exact h

lemma inv_difficultyDecayStep (dt : ℚ) (c : Character) (hdt : 0 ≤ dt)
    (h : Inv c) : Inv (difficultyDecayStep dt c) := by
  unfold difficultyDecayStep; split
  · obtain ⟨h1, h2, h3, h4, h5, h6, h7, h8, h9⟩ := h
    refine ⟨h1, h2, h3, h4, h5, h6, le_max_left _ _, ?_, h9⟩
    exact max_le (one_le_targetDifficulty _)
      (le_trans (by nlinarith) h8)
  · exact h

lemma inv_idleStateStep (c : Character) (h : Inv c) :
    Inv (idleStateStep c) := by
  unfold idleStateStep; split <;>
    exact inv_of_fields c _ rfl rfl rfl rfl rfl rfl rfl (fun hf => hf) h

lemma inv_stepMovementPhase (o : Oracle) (dt : ℚ) (c : Character)
    (hdt : 0 ≤ dt) (h : Inv c) : Inv (stepMovementPhase o dt c) := by
  obtain ⟨h1, h2, h3, h4, h5, h6, h7, h8, h9⟩ := h
  unfold stepMovementPhase
  dsimp only
  split
  · have harg0 : (0 : ℚ) ≤ (c.stepTimer + dt) / stepTime :=
      div_nonneg (add_nonneg h6 hdt) (by unfold stepTime; norm_num)
    have ht0 : (0 : ℚ) ≤ min 1 ((c.stepTimer + dt) / stepTime) :=
      le_min (by norm_num) harg0
    have ht1 : min 1 ((c.stepTimer + dt) / stepTime) ≤ 1 := min_le_left _ _
    have he0 : 0 ≤ easeInOutQuad (min 1 ((c.stepTimer + dt) / stepTime)) :=
      easeInOutQuad_nonneg ht0 ht1
    have he1 : easeInOutQuad (min 1 ((c.stepTimer + dt) / stepTime)) ≤ 1 :=
      easeInOutQuad_le_one ht0 ht1
    have hpos0' : 0 ≤ c.stepStartPosition +
        (c.stepTargetPosition - c.stepStartPosition) *
          easeInOutQuad (min 1 ((c.stepTimer + dt) / stepTime)) :=
      add_nonneg h3 (mul_nonneg (by linarith) he0)
    have hpos1' : c.stepStartPosition +
        (c.stepTargetPosition - c.stepStartPosition) *
          easeInOutQuad (min 1 ((c.stepTimer + dt) / stepTime)) ≤ 1 := by
      nlinarith
    have hinv2 : Inv (startNewStep o { c with
        stepTimer := c.stepTimer + dt
        position := c.stepStartPosition +
          (c.stepTargetPosition - c.stepStartPosition) *
            easeInOutQuad (min 1 ((c.stepTimer + dt) / stepTime))
        takingStep := false }) :=
      inv_startNewStep o _ hpos0' hpos1' h7 h8
    split
    · split
      · split
        · exact inv_of_fields _ _ rfl rfl rfl rfl rfl rfl rfl (fun hf => hf) hinv2
        · exact hinv2
      · split
        · exact ⟨hpos0', hpos1', h3, h4, h5, add_nonneg h6 hdt, h7, h8,
            fun _ hstep => nomatch hstep⟩
        · exact ⟨hpos0', hpos1', h3, h4, h5, add_nonneg h6 hdt, h7, h8,
            fun _ hstep => nomatch hstep⟩
    · exact ⟨hpos0', hpos1', h3, h4, h5, add_nonneg h6 hdt, h7, h8,
        fun _ _ => rfl⟩
  · exact inv_idleStateStep _ (inv_difficultyDecayStep dt _ hdt
      (inv_balanceRecoveryStep dt _ (inv_newStepCheck o _
        ⟨h1, h2, h3, h4, h5, h6, h7, h8, h9⟩)))

lemma inv_balanceNoisePhase (o : Oracle) (dt : ℚ) (c : Character)
    (h : Inv c) : Inv (balanceNoisePhase o dt c) := by
  unfold balanceNoisePhase
  dsimp only
  split <;> exact inv_of_fields c _ rfl rfl rfl rfl rfl rfl rfl (fun hf => hf) h

lemma inv_playerForcePhase (o : Oracle) (dt : ℚ) (c : Character)
    (h : Inv c) : Inv (playerForcePhase o dt c) :=
  inv_of_fields c _ rfl rfl rfl rfl rfl rfl rfl (fun hf => hf) h

lemma inv_windForcePhase (dt : ℚ) (c : Character) (h : Inv c) :
    Inv (windForcePhase dt c) :=
  inv_of_fields c _ rfl rfl rfl rfl rfl rfl rfl (fun hf => hf) h

lemma inv_clampBalancePhase (c : Character) (h : Inv c) :
    Inv (clampBalancePhase c) :=
  inv_of_fields c _ rfl rfl rfl rfl rfl rfl rfl (fun hf => hf) h

lemma inv_updateState (c : Character) (h : Inv c) : Inv (updateState c) := by
  unfold updateState
  split
  · exact h
  split
  · exact h
  split
  · exact inv_of_fields c _ rfl rfl rfl rfl rfl rfl rfl (fun hf => hf) h
  split
  · exact inv_of_fields c _ rfl rfl rfl rfl rfl rfl rfl (fun hf => hf) h
  split
  · exact inv_of_fields c _ rfl rfl rfl rfl rfl rfl rfl (fun hf => hf) h
  · exact inv_of_fields c _ rfl rfl rfl rfl rfl rfl rfl (fun hf => hf) h

lemma inv_stepTimerPhase (dt : ℚ) (c : Character) (hdt : 0 ≤ dt)
    (h : Inv c) : Inv (stepTimerPhase dt c) := by
  unfold stepTimerPhase
  split
  case isTrue hcond =>
    obtain ⟨h1, h2, h3, h4, h5, h6, h7, h8, h9⟩ := h
    refine ⟨h1, h2, h3, h4, h5, add_nonneg h6 hdt, h7, h8, ?_⟩
    intro _ hstep
    have hstep' : c.takingStep = true := hstep
    rw [hcond] at hstep'
    exact Bool.noConfusion hstep'
  case isFalse => exact h

lemma inv_endCheckPhase (c : Character) (h : Inv c) :
    Inv (endCheckPhase c) := by
  unfold endCheckPhase; split
  · exact inv_transitionToEndPlatform c h
  · exact h

lemma inv_update (o : Oracle) (dt : ℚ) (c : Character) (hdt : 0 ≤ dt)
    (h : Inv c) : Inv (update o dt c) := by
  unfold update; split
  · exact h
  · exact inv_endCheckPhase _ (inv_stepTimerPhase dt _ hdt (inv_updateState _
      (inv_clampBalancePhase _ (inv_windForcePhase dt _ (inv_playerForcePhase o dt _
        (inv_balanceNoisePhase o dt _ (inv_stepMovementPhase o dt c hdt h)))))))

unseal Rat.add Rat.sub Rat.mul Rat.inv in
lemma inv_initialCharacter : Inv initialCharacter := by unfold Inv; decide

lemma reachable_inv {c : Character} (h : Reachable c) : Inv c := by
  induction h with
  | init => exact inv_initialCharacter
  | update o dt c hdt _ ih => exact inv_update o dt c hdt ih
  | applyForces wf wd rr dt c _ _ ih => exact inv_applyForces wf wd rr dt c ih
  | transitionToRope o c _ ih => exact inv_transitionToRope o c ih
  | resetPosition c _ ih => exact inv_resetPosition c ih
  | adjustBalance d c _ ih => exact inv_adjustBalance d c ih
  | setWindEffect w c _ ih => exact inv_setWindEffect w c ih
  | moveForward c _ ih => exact inv_moveForward c ih
  | stopMoving c _ ih => exact inv_stopMoving c ih
  | moveBackward c _ ih => exact inv_moveBackward c ih
  | stopMovingBackward c _ ih => exact inv_stopMovingBackward c ih
  | moveLeft c _ ih => exact inv_moveLeft c ih
  | stopMovingLeft c _ ih => exact inv_stopMovingLeft c ih
  | moveRight c _ ih => exact inv_moveRight c ih
  | stopMovingRight c _ ih => exact inv_stopMovingRight c ih
  | rotateLeft c _ ih => exact inv_rotateLeft c ih
  | stopRotatingLeft c _ ih => exact inv_stopRotatingLeft c ih
  | rotateRight c _ ih => exact inv_rotateRight c ih
  | stopRotatingRight c _ ih => exact inv_stopRotatingRight c ih

/-! ### Field-tracking lemmas for the update phases -/

lemma startNewStep_position (o : Oracle) (c : Character) :
    (startNewStep o c).position = c.position := by
  unfold startNewStep; dsimp only; split <;> rfl

lemma startNewStep_takingStep (o : Oracle) (c : Character) :
    (startNewStep o c).takingStep = true := by
  unfold startNewStep; dsimp only; split <;> rfl

lemma startNewStep_state (o : Oracle) (c : Character) :
    (startNewStep o c).state = CState.WALKING := by
  unfold startNewStep; dsimp only; split <;> rfl

lemma startNewStep_totalStepsTaken (o : Oracle) (c : Character) :
    (startNewStep o c).totalStepsTaken = c.totalStepsTaken + 1 := by
  unfold startNewStep; dsimp only; split <;> rfl

lemma startNewStep_balance (o : Oracle) (c : Character) :
    (startNewStep o c).balance = c.balance +
      movementBalanceEffect * c.balanceDifficulty *
        (o.stepRand - 1 / 2 + c.windEffect * (1 / 5)) := by
  unfold startNewStep; dsimp only; split <;> rfl

lemma startNewStep_bd_mono (o : Oracle) (c : Character)
    (hbd : c.balanceDifficulty ≤ targetDifficulty c.totalStepsTaken) :
    c.balanceDifficulty ≤ (startNewStep o c).balanceDifficulty := by
  unfold startNewStep; dsimp only; split
  · show c.balanceDifficulty ≤
      min (c.balanceDifficulty + 1 / 5) (targetDifficulty (c.totalStepsTaken + 1))
    exact le_min (by linarith)
      (hbd.trans (targetDifficulty_mono (Nat.le_succ _)))
  · exact le_refl _

lemma newStepCheck_skip (o : Oracle) (c : Character)
    (hfw : c.isMovingForward = false) : newStepCheck o c = c := by
  unfold newStepCheck
  rw [if_neg]
  intro hcon
  rw [hfw] at hcon
  exact Bool.noConfusion hcon.1

lemma balanceRecoveryStep_skip (dt : ℚ) (c : Character)
    (h : ¬(1 / 10 < |c.balance|)) : balanceRecoveryStep dt c = c := by
  unfold balanceRecoveryStep; rw [if_neg h]

lemma difficultyDecayStep_balance (dt : ℚ) (c : Character) :
    (difficultyDecayStep dt c).balance = c.balance := by
  unfold difficultyDecayStep; split <;> rfl

lemma difficultyDecayStep_position (dt : ℚ) (c : Character) :
    (difficultyDecayStep dt c).position = c.position := by
  unfold difficultyDecayStep; split <;> rfl

lemma difficultyDecayStep_state (dt : ℚ) (c : Character) :
    (difficultyDecayStep dt c).state = c.state := by
  unfold difficultyDecayStep; split <;> rfl

lemma difficultyDecayStep_isOnPlatform (dt : ℚ) (c : Character) :
    (difficultyDecayStep dt c).isOnPlatform = c.isOnPlatform := by
  unfold difficultyDecayStep; split <;> rfl

lemma difficultyDecayStep_takingStep (dt : ℚ) (c : Character) :
    (difficultyDecayStep dt c).takingStep = c.takingStep := by
  unfold difficultyDecayStep; split <;> rfl

lemma difficultyDecayStep_stepTimer (dt : ℚ) (c : Character) :
    (difficultyDecayStep dt c).stepTimer = c.stepTimer := by
  unfold difficultyDecayStep; split <;> rfl

lemma difficultyDecayStep_balanceNoiseTimer (dt : ℚ) (c : Character) :
    (difficultyDecayStep dt c).balanceNoiseTimer = c.balanceNoiseTimer := by
  unfold difficultyDecayStep; split <;> rfl

lemma difficultyDecayStep_balanceForce (dt : ℚ) (c : Character) :
    (difficultyDecayStep dt c).balanceForce = c.balanceForce := by
  unfold difficultyDecayStep; split <;> rfl

lemma difficultyDecayStep_windEffect (dt : ℚ) (c : Character) :
    (difficultyDecayStep dt c).windEffect = c.windEffect := by
  unfold difficultyDecayStep; split <;> rfl

lemma difficultyDecayStep_fire (dt : ℚ) (c : Character)
    (hts : c.takingStep = false) (htm : 2 < c.stepTimer) :
    (difficultyDecayStep dt c).balanceDifficulty =
      max 1 (c.balanceDifficulty - dt * (3 / 10)) := by
  unfold difficultyDecayStep; rw [if_pos ⟨hts, htm⟩]

lemma idleStateStep_balance (c : Character) :
    (idleStateStep c).balance = c.balance := by
  unfold idleStateStep; split <;> rfl

lemma idleStateStep_position (c : Character) :
    (idleStateStep c).position = c.position := by
  unfold idleStateStep; split <;> rfl

lemma idleStateStep_isOnPlatform (c : Character) :
    (idleStateStep c).isOnPlatform = c.isOnPlatform := by
  unfold idleStateStep; split <;> rfl

lemma idleStateStep_takingStep (c : Character) :
    (idleStateStep c).takingStep = c.takingStep := by
  unfold idleStateStep; split <;> rfl

lemma idleStateStep_stepTimer (c : Character) :
    (idleStateStep c).stepTimer = c.stepTimer := by
  unfold idleStateStep; split <;> rfl

lemma idleStateStep_balanceNoiseTimer (c : Character) :
    (idleStateStep c).balanceNoiseTimer = c.balanceNoiseTimer := by
  unfold idleStateStep; split <;> rfl

lemma idleStateStep_balanceForce (c : Character) :
    (idleStateStep c).balanceForce = c.balanceForce := by
  unfold idleStateStep; split <;> rfl

lemma idleStateStep_windEffect (c : Character) :
    (idleStateStep c).windEffect = c.windEffect := by
  unfold idleStateStep; split <;> rfl

lemma idleStateStep_balanceDifficulty (c : Character) :
    (idleStateStep c).balanceDifficulty = c.balanceDifficulty := by
  unfold idleStateStep; split <;> rfl

lemma idleStateStep_state_idle (c : Character)
    (h : ¬(3 / 10 < |c.balance|)) : (idleStateStep c).state = CState.IDLE := by
  unfold idleStateStep; rw [if_neg h]

lemma balanceNoisePhase_skip (o : Oracle) (dt : ℚ) (c : Character)
    (h : ¬(balanceNoiseInterval ≤ c.balanceNoiseTimer + dt)) :
    balanceNoisePhase o dt c =
      { c with balanceNoiseTimer := c.balanceNoiseTimer + dt } := by
  unfold balanceNoisePhase
  dsimp only
  rw [if_neg h]

lemma balanceNoisePhase_position (o : Oracle) (dt : ℚ) (c : Character) :
    (balanceNoisePhase o dt c).position = c.position := by
  unfold balanceNoisePhase; dsimp only; split <;> rfl

lemma balanceNoisePhase_state (o : Oracle) (dt : ℚ) (c : Character) :
    (balanceNoisePhase o dt c).state = c.state := by
  unfold balanceNoisePhase; dsimp only; split <;> rfl

lemma balanceNoisePhase_isOnPlatform (o : Oracle) (dt : ℚ) (c : Character) :
    (balanceNoisePhase o dt c).isOnPlatform = c.isOnPlatform := by
  unfold balanceNoisePhase; dsimp only; split <;> rfl

lemma balanceNoisePhase_takingStep (o : Oracle) (dt : ℚ) (c : Character) :
    (balanceNoisePhase o dt c).takingStep = c.takingStep := by
  unfold balanceNoisePhase; dsimp only; split <;> rfl

lemma balanceNoisePhase_stepTimer (o : Oracle) (dt : ℚ) (c : Character) :
    (balanceNoisePhase o dt c).stepTimer = c.stepTimer := by
  unfold balanceNoisePhase; dsimp only; split <;> rfl

lemma balanceNoisePhase_balanceDifficulty (o : Oracle) (dt : ℚ) (c : Character) :
    (balanceNoisePhase o dt c).balanceDifficulty = c.balanceDifficulty := by
  unfold balanceNoisePhase; dsimp only; split <;> rfl

lemma balanceNoisePhase_balanceForce (o : Oracle) (dt : ℚ) (c : Character) :
    (balanceNoisePhase o dt c).balanceForce = c.balanceForce := by
  unfold balanceNoisePhase; dsimp only; split <;> rfl

lemma balanceNoisePhase_windEffect (o : Oracle) (dt : ℚ) (c : Character) :
    (balanceNoisePhase o dt c).windEffect = c.windEffect := by
  unfold balanceNoisePhase; dsimp only; split <;> rfl

lemma updateState_balance (c : Character) :
    (updateState c).balance = c.balance := by
  unfold updateState
  repeat' split
  all_goals rfl

lemma updateState_position (c : Character) :
    (updateState c).position = c.position := by
  unfold updateState
  repeat' split
  all_goals rfl

lemma updateState_isOnPlatform (c : Character) :
    (updateState c).isOnPlatform = c.isOnPlatform := by
  unfold updateState
  repeat' split
  all_goals rfl

lemma updateState_takingStep (c : Character) :
    (updateState c).takingStep = c.takingStep := by
  unfold updateState
  repeat' split
  all_goals rfl

lemma updateState_stepTimer (c : Character) :
    (updateState c).stepTimer = c.stepTimer := by
  unfold updateState
  repeat' split
  all_goals rfl

lemma updateState_balanceDifficulty (c : Character) :
    (updateState c).balanceDifficulty = c.balanceDifficulty := by
  unfold updateState
  repeat' split
  all_goals rfl

lemma updateState_state_idle (c : Character)
    (hrope : c.isOnPlatform = false) (hnf : c.state ≠ CState.FALLING)
    (hts : c.takingStep = false) (hsmall : |c.balance| ≤ 1 / 2) :
    (updateState c).state = CState.IDLE := by
  unfold updateState
  rw [if_neg (by rw [hrope]; exact Bool.noConfusion), if_neg hnf,
    if_neg (by rw [hts]; exact Bool.noConfusion),
    if_neg (not_lt.mpr (hsmall.trans (by norm_num))),
    if_neg (not_lt.mpr hsmall)]

lemma playerForcePhase_balance (o : Oracle) (dt : ℚ) (c : Character) :
    (playerForcePhase o dt c).balance =
      c.balance + c.balanceForce * dt * 2 / (o.sqrtDifficulty * (3 / 5)) := rfl

lemma windForcePhase_balance (dt : ℚ) (c : Character) :
    (windForcePhase dt c).balance =
      c.balance + c.windEffect * dt * (3 / 10) * c.balanceDifficulty := rfl

lemma clampBalancePhase_balance (c : Character) :
    (clampBalancePhase c).balance = max (-1) (min 1 c.balance) := rfl

lemma clampBalancePhase_id (c : Character)
    (h1 : -1 ≤ c.balance) (h2 : c.balance ≤ 1) :
    clampBalancePhase c = c := by
  unfold clampBalancePhase
  rw [min_eq_right h2, max_eq_right h1]

lemma stepTimerPhase_balance (dt : ℚ) (c : Character) :
    (stepTimerPhase dt c).balance = c.balance := by
  unfold stepTimerPhase; split <;> rfl

lemma stepTimerPhase_position (dt : ℚ) (c : Character) :
    (stepTimerPhase dt c).position = c.position := by
  unfold stepTimerPhase; split <;> rfl

lemma stepTimerPhase_state (dt : ℚ) (c : Character) :
    (stepTimerPhase dt c).state = c.state := by
  unfold stepTimerPhase; split <;> rfl

lemma stepTimerPhase_isOnPlatform (dt : ℚ) (c : Character) :
    (stepTimerPhase dt c).isOnPlatform = c.isOnPlatform := by
  unfold stepTimerPhase; split <;> rfl

lemma stepTimerPhase_takingStep (dt : ℚ) (c : Character) :
    (stepTimerPhase dt c).takingStep = c.takingStep := by
  unfold stepTimerPhase; split <;> rfl

lemma stepTimerPhase_balanceDifficulty (dt : ℚ) (c : Character) :
    (stepTimerPhase dt c).balanceDifficulty = c.balanceDifficulty := by
  unfold stepTimerPhase; split <;> rfl

lemma endCheckPhase_skip (c : Character) (h : ¬(98 / 100 ≤ c.position)) :
    endCheckPhase c = c := by
  unfold endCheckPhase; rw [if_neg h]

/-! ### Rope progress never moves backwards -/

lemma stepMovementPhase_position_mono (o : Oracle) (dt : ℚ) (c : Character)
    (hdt : 0 ≤ dt) (hrope : c.isOnPlatform = false) (h : Inv c) :
    c.position ≤ (stepMovementPhase o dt c).position := by
  obtain ⟨h1, h2, h3, h4, h5, h6, h7, h8, h9⟩ := h
  unfold stepMovementPhase
  dsimp only
  split
  case isTrue hts =>
    have hxpos := h9 hrope hts
    have hTpos : (0 : ℚ) < stepTime := by unfold stepTime; norm_num
    have harg0 : (0 : ℚ) ≤ c.stepTimer / stepTime := div_nonneg h6 hTpos.le
    have hargle : c.stepTimer / stepTime ≤ (c.stepTimer + dt) / stepTime := by
      gcongr
      linarith
    have ht0 : (0 : ℚ) ≤ min 1 (c.stepTimer / stepTime) :=
      le_min (by norm_num) harg0
    have hmle : min 1 (c.stepTimer / stepTime) ≤
        min 1 ((c.stepTimer + dt) / stepTime) :=
      min_le_min (le_refl 1) hargle
    have hm1 : min 1 ((c.stepTimer + dt) / stepTime) ≤ 1 := min_le_left _ _
    have hemono : easeInOutQuad (min 1 (c.stepTimer / stepTime)) ≤
        easeInOutQuad (min 1 ((c.stepTimer + dt) / stepTime)) :=
      easeInOutQuad_mono ht0 hmle hm1
    have key : c.position ≤ c.stepStartPosition +
        (c.stepTargetPosition - c.stepStartPosition) *
          easeInOutQuad (min 1 ((c.stepTimer + dt) / stepTime)) := by
      rw [hxpos]
      have hdelta : (0 : ℚ) ≤ c.stepTargetPosition - c.stepStartPosition := by
        linarith
      nlinarith
    split
    · split
      · split
        · rw [startNewStep_position]; exact key
        · rw [startNewStep_position]; exact key
      · split
        · exact key
        · exact key
    · exact key
  case isFalse hts =>
    have hts' : c.takingStep = false := by
      revert hts; cases c.takingStep <;> simp
    rw [idleStateStep_position, difficultyDecayStep_position]
    by_cases hfw : c.isMovingForward = false
    · rw [newStepCheck_skip o c hfw]
      rw [show (balanceRecoveryStep dt c).position = c.position from by
        unfold balanceRecoveryStep; split <;> rfl]
    · unfold newStepCheck
      split
      · rw [show (balanceRecoveryStep dt (startNewStep o c)).position =
            (startNewStep o c).position from by
          unfold balanceRecoveryStep; split <;> rfl]
        rw [startNewStep_position]
      · rw [show (balanceRecoveryStep dt c).position = c.position from by
          unfold balanceRecoveryStep; split <;> rfl]

lemma update_position_mono (o : Oracle) (dt : ℚ) (c : Character)
    (hdt : 0 ≤ dt) (h : Inv c) : c.position ≤ (update o dt c).position := by
  unfold update
  split
  · exact le_refl _
  case isFalse hplat =>
    have hrope : c.isOnPlatform = false := by
      revert hplat; cases c.isOnPlatform <;> simp
    have hmono := stepMovementPhase_position_mono o dt c hdt hrope h
    have hchain : (stepTimerPhase dt (updateState (clampBalancePhase
        (windForcePhase dt (playerForcePhase o dt (balanceNoisePhase o dt
          (stepMovementPhase o dt c))))))).position =
        (stepMovementPhase o dt c).position := by
      rw [stepTimerPhase_position, updateState_position]
      show (balanceNoisePhase o dt (stepMovementPhase o dt c)).position =
        (stepMovementPhase o dt c).position
      exact balanceNoisePhase_position o dt _
    unfold endCheckPhase
    split
    · show c.position ≤ 1
      exact h.2.1
    · rw [hchain]
      exact hmono

lemma inv_updateN (o : Oracle) (dt : ℚ) (n : ℕ) (c : Character)
    (hdt : 0 ≤ dt) (h : Inv c) : Inv (updateN o dt n c) := by
  induction n generalizing c with
  | zero => exact h
  | succ n ih => exact ih _ (inv_update o dt c hdt h)

lemma position_le_updateN (o : Oracle) (dt : ℚ) (n : ℕ) (c : Character)
    (hdt : 0 ≤ dt) (h : Inv c) : c.position ≤ (updateN o dt n c).position := by
  induction n generalizing c with
  | zero => exact le_refl _
  | succ n ih =>
    exact (update_position_mono o dt c hdt h).trans
      (ih _ (inv_update o dt c hdt h))

lemma updateN_comp (o : Oracle) (dt : ℚ) (m k : ℕ) (c : Character) :
    updateN o dt m (updateN o dt k c) = updateN o dt (k + m) c := by
  induction k generalizing c with
  | zero => rw [Nat.zero_add]; rfl
  | succ k ih =>
    show updateN o dt m (updateN o dt k (update o dt c)) = _
    rw [ih]
    have hkm : k + 1 + m = (k + m) + 1 := by omega
    rw [hkm]
    rfl

/-- The balance value produced by a rope-mode `update` always passes
through the clamp (or is zeroed by the end-platform transition). -/
lemma update_balance_clamped (o : Oracle) (dt : ℚ) (c : Character)
    (hrope : c.isOnPlatform = false) :
    -1 ≤ (update o dt c).balance ∧ (update o dt c).balance ≤ 1 := by
  unfold update
  rw [if_neg (by rw [hrope]; exact Bool.noConfusion)]
  have hcl : -1 ≤ (clampBalancePhase (windForcePhase dt (playerForcePhase o dt
      (balanceNoisePhase o dt (stepMovementPhase o dt c))))).balance ∧
      (clampBalancePhase (windForcePhase dt (playerForcePhase o dt
        (balanceNoisePhase o dt (stepMovementPhase o dt c))))).balance ≤ 1 := by
    rw [clampBalancePhase_balance]
    exact ⟨le_max_left _ _, max_le (by norm_num) (min_le_left _ _)⟩
  unfold endCheckPhase
  split
  · constructor
    · show (-1 : ℚ) ≤ 0
      norm_num
    · show (0 : ℚ) ≤ 1
      norm_num
  · rw [stepTimerPhase_balance, updateState_balance]
    exact hcl

/-! ### Concrete states and oracles used by the claim instances -/

/-- Oracle whose step draw is the extreme value 1 (other draws 1/2). -/
def oracleOne : Oracle :=
  { stepRand := 1, wobbleRand := 1 / 2, noiseRand := 1 / 2, sqrtDifficulty := 1 }

/-- A mid-rope FALLING state with accumulated steps and raised
difficulty. -/
def midFallCharacter : Character :=
  { initialCharacter with
      state := CState.FALLING
      isOnPlatform := false
      position := 1 / 2
      balance := 95 / 100
      stepTimer := 3
      totalStepsTaken := 12
      balanceDifficulty := 2 }

/-- A quiet mid-rope state (no step in flight, everything else at the
constructor defaults). -/
def ropeIdleCharacter : Character :=
  { initialCharacter with isOnPlatform := false, position := 1 / 2 }

/-- A quiet mid-rope state with the lean command held fully right. -/
def playerForceTestCharacter : Character :=
  { initialCharacter with
      isOnPlatform := false, position := 1 / 2, balanceForce := 1 }

/-- A mid-rope state with a step in flight, 0.4 s into the step. -/
def stepMidCharacter : Character :=
  { initialCharacter with
      isOnPlatform := false
      takingStep := true
      state := CState.WALKING
      stepTimer := 2 / 5
      position := 1 / 100
      stepStartPosition := 0
      stepTargetPosition := 3 / 100 }

/-! ### Claim theorems -/

/-- C1: for every reachable state with the avatar on the rope and every
dt ≥ 0, after `update(dt)` returns, `balance` lies in [-1, 1] and the
rope progress lies in [0, 1]. -/
theorem ropeUpdateBounds (o : Oracle) (dt : ℚ) (c : Character)
    (hr : Reachable c) (hrope : c.isOnPlatform = false) (hdt : 0 ≤ dt) :
    (-1 ≤ (update o dt c).balance ∧ (update o dt c).balance ≤ 1) ∧
    (0 ≤ (update o dt c).position ∧ (update o dt c).position ≤ 1) := by
  have hinv := inv_update o dt c hdt (reachable_inv hr)
  exact ⟨update_balance_clamped o dt c hrope, hinv.1, hinv.2.1⟩

/-- C1 witness: the bounds instantiated just after stepping onto the
rope, with dt = 0.1. -/
theorem ropeUpdateBounds_witness :
    (-1 ≤ (update oracleHalf (1 / 10)
        (transitionToRope oracleHalf initialCharacter)).balance ∧
      (update oracleHalf (1 / 10)
        (transitionToRope oracleHalf initialCharacter)).balance ≤ 1) ∧
    (0 ≤ (update oracleHalf (1 / 10)
        (transitionToRope oracleHalf initialCharacter)).position ∧
      (update oracleHalf (1 / 10)
        (transitionToRope oracleHalf initialCharacter)).position ≤ 1) :=
  ropeUpdateBounds oracleHalf (1 / 10) _
    (Reachable.transitionToRope oracleHalf initialCharacter Reachable.init)
    rfl (by norm_num)

/-- C10: while the avatar is on the rope, one `update(dt)` with dt ≥ 0
never decreases the rope progress: each step interpolates with the
monotone easing curve from its start to a target at least as large, and
no other statement moves `position` backwards. -/
theorem ropeProgressMonotone (o : Oracle) (dt : ℚ) (c : Character)
    (hr : Reachable c) (hrope : c.isOnPlatform = false) (hdt : 0 ≤ dt) :
    c.position ≤ (update o dt c).position :=
  update_position_mono o dt c hdt (reachable_inv hr)

/-- C10 witness: monotonicity instantiated just after stepping onto the
rope, with dt = 0.1. -/
theorem ropeProgressMonotone_witness :
    (transitionToRope oracleHalf initialCharacter).position ≤
      (update oracleHalf (1 / 10)
        (transitionToRope oracleHalf initialCharacter)).position :=
  ropeProgressMonotone oracleHalf (1 / 10) _
    (Reachable.transitionToRope oracleHalf initialCharacter Reachable.init)
    rfl (by norm_num)

unseal Rat.add Rat.sub Rat.mul Rat.inv in
/-- C3 counterexample: from a FALLING mid-rope state with 12 steps taken
and difficulty 2, `resetPosition()` leaves `totalStepsTaken = 12` and
`balanceDifficulty = 2`, contradicting the claim that reset restores
`stepsTaken = 0` and `difficulty = 1`. -/
theorem resetKeepsCounters :
    (resetPosition midFallCharacter).totalStepsTaken = 12 ∧
    (resetPosition midFallCharacter).balanceDifficulty = 2 ∧
    ¬((resetPosition midFallCharacter).totalStepsTaken = 0 ∧
      (resetPosition midFallCharacter).balanceDifficulty = 1) := by
  decide

/-- C3 amended: for every prior state, `resetPosition()` restores
position, balance, speed, activity, lean force, mode, forward intent,
wind effect, the four translation flags and the pole mode to their
initial values — but it does not touch `totalStepsTaken`,
`balanceDifficulty`, `takingStep`, the step fields, the noise timer or
the two rotation flags, which keep their prior values. -/
theorem resetPositionEffect (c : Character) :
    (resetPosition c).position = 0 ∧
    (resetPosition c).balance = 0 ∧
    (resetPosition c).speed = 0 ∧
    (resetPosition c).state = CState.IDLE ∧
    (resetPosition c).balanceForce = 0 ∧
    (resetPosition c).isOnPlatform = true ∧
    (resetPosition c).isMovingForward = false ∧
    (resetPosition c).windEffect = 0 ∧
    (resetPosition c).platformMovement.forward = false ∧
    (resetPosition c).platformMovement.backward = false ∧
    (resetPosition c).platformMovement.left = false ∧
    (resetPosition c).platformMovement.right = false ∧
    (resetPosition c).poleHoldMode = PoleHold.ONE_HAND ∧
    (resetPosition c).totalStepsTaken = c.totalStepsTaken ∧
    (resetPosition c).balanceDifficulty = c.balanceDifficulty ∧
    (resetPosition c).takingStep = c.takingStep ∧
    (resetPosition c).stepTimer = c.stepTimer ∧
    (resetPosition c).stepStartPosition = c.stepStartPosition ∧
    (resetPosition c).stepTargetPosition = c.stepTargetPosition ∧
    (resetPosition c).balanceNoiseTimer = c.balanceNoiseTimer ∧
    (resetPosition c).platformMovement.rotateLeft =
      c.platformMovement.rotateLeft ∧
    (resetPosition c).platformMovement.rotateRight =
      c.platformMovement.rotateRight :=
  ⟨rfl, rfl, rfl, rfl, rfl, rfl, rfl, rfl, rfl, rfl, rfl, rfl, rfl, rfl, rfl,
    rfl, rfl, rfl, rfl, rfl, rfl, rfl⟩

/-- C5: the platform-to-rope gate computed by `checkRopeProximity` fires
exactly for forward intent together with either distance below the
forced threshold 1.0 or distance below the edge threshold 2.5 with
facing angle below 45° (using that an angle below 45° forces the dot
product above 0.5, the arccosine being antitone); the forced transition
inside `constrainToPlatform` is exactly forward intent with distance
below 1.0. -/
theorem transitionGateCharacterization (g : GateInput) (f : Bool) (d : ℚ)
    (hacos : g.angleToDegrees < 45 → 1 / 2 < g.dotProduct) :
    (ropeTransitionFires g ↔
      (g.forward = true ∧ (g.distanceToRopeStart < 1 ∨
        (g.distanceToRopeStart < 5 / 2 ∧ g.angleToDegrees < 45)))) ∧
    (constrainRopeTransition f d ↔ (f = true ∧ d < 1)) := by
  constructor
  · unfold ropeTransitionFires onRopeEdge facingRope
    constructor
    · rintro ⟨hf, _, hd, hang⟩
      refine ⟨hf, ?_⟩
      rcases hang with hang | hd1
      · by_cases hd1 : g.distanceToRopeStart < 1
        · exact Or.inl hd1
        · exact Or.inr ⟨hd, hang⟩
      · exact Or.inl hd1
    · rintro ⟨hf, hcase⟩
      rcases hcase with hd1 | ⟨hd, hang⟩
      · exact ⟨hf, Or.inl (Or.inr hd1), by linarith, Or.inr hd1⟩
      · exact ⟨hf, Or.inl (Or.inl ⟨hd, hacos hang⟩), hd, Or.inl hang⟩
  · unfold constrainRopeTransition
    constructor
    · rintro ⟨_, hf, hd⟩
      exact ⟨hf, hd⟩
    · rintro ⟨hf, hd⟩
      exact ⟨by linarith, hf, hd⟩

/-- C5 witness: the gate fires at distance 0.5, angle 0°, forward intent
(and the forced constrain-path fires there too), and does not fire at
distance 5, angle 60°. -/
theorem transitionGateCharacterization_witness :
    ropeTransitionFires
      { forward := true, distanceToRopeStart := 1 / 2,
        angleToDegrees := 0, dotProduct := 1 } ∧
    constrainRopeTransition true (1 / 2) ∧
    ¬ropeTransitionFires
      { forward := true, distanceToRopeStart := 5,
        angleToDegrees := 60, dotProduct := 1 / 2 } := by
  refine ⟨?_, ?_, ?_⟩
  · exact ((transitionGateCharacterization
      { forward := true, distanceToRopeStart := 1 / 2,
        angleToDegrees := 0, dotProduct := 1 } true (1 / 2)
      (fun _ => by norm_num)).1).mpr ⟨rfl, Or.inl (by norm_num)⟩
  · exact ((transitionGateCharacterization
      { forward := true, distanceToRopeStart := 1 / 2,
        angleToDegrees := 0, dotProduct := 1 } true (1 / 2)
      (fun _ => by norm_num)).2).mpr ⟨rfl, by norm_num⟩
  · intro hfire
    have hres := ((transitionGateCharacterization
      { forward := true, distanceToRopeStart := 5,
        angleToDegrees := 60, dotProduct := 1 / 2 } true (1 / 2)
      (fun h => absurd h (by norm_num))).1).mp hfire
    rcases hres.2 with h | ⟨h, _⟩ <;> norm_num at h

unseal Rat.add Rat.sub Rat.mul Rat.inv in
/-- C7 counterexample: from a quiet rope state with difficulty 1 and the
lean command at 1, a single `update(0.1)` moves the balance by 1/3, not
by the claimed `playerLean * dt * 2 / sqrt(difficulty) = 0.2`: the
source divides by `sqrt(difficulty) * 0.6`. -/
theorem playerLeanContributionValue :
    (update oracleHalf (1 / 10) playerForceTestCharacter).balance = 1 / 3 ∧
    (1 : ℚ) * (1 / 10) * 2 / 1 = 1 / 5 ∧
    ¬((1 : ℚ) / 3 = 1 / 5) := by
  decide

/-- C7 amended: the player-lean line adds
`balanceForce * dt * 2 / (sqrt(difficulty) * 0.6)`, which equals
`(10/3) * balanceForce * dt / sqrt(difficulty)` — a factor 5/3 larger
than the claimed `balanceForce * dt * 2 / sqrt(difficulty)`. -/
theorem playerLeanFormula (o : Oracle) (dt : ℚ) (c : Character)
    (hs : 0 < o.sqrtDifficulty) :
    (playerForcePhase o dt c).balance =
      c.balance + c.balanceForce * dt * 2 / (o.sqrtDifficulty * (3 / 5)) ∧
    (playerForcePhase o dt c).balance =
      c.balance + (10 / 3) * (c.balanceForce * dt / o.sqrtDifficulty) := by
  refine ⟨rfl, ?_⟩
  rw [playerForcePhase_balance]
  have hne : o.sqrtDifficulty ≠ 0 := ne_of_gt hs
  field_simp
  ring

/-- C7 witness: the formula instantiated at dt = 1, difficulty 1. -/
theorem playerLeanFormula_witness :
    (playerForcePhase oracleHalf 1 initialCharacter).balance =
      initialCharacter.balance + initialCharacter.balanceForce * 1 * 2 /
        (oracleHalf.sqrtDifficulty * (3 / 5)) ∧
    (playerForcePhase oracleHalf 1 initialCharacter).balance =
      initialCharacter.balance + (10 / 3) *
        (initialCharacter.balanceForce * 1 / oracleHalf.sqrtDifficulty) :=
  playerLeanFormula oracleHalf 1 initialCharacter (by decide)

unseal Rat.add Rat.sub Rat.mul Rat.inv in
/-- C9 counterexample: the strafe-left command issued on the rope is not
a no-op — it routes to `adjustBalance(-1)` and sets the lean force. -/
theorem strafeOnRopeEffect :
    ropeIdleCharacter.balanceForce = 0 ∧
    (moveLeft ropeIdleCharacter).balanceForce = -1 ∧
    ¬(moveLeft ropeIdleCharacter = ropeIdleCharacter) := by
  decide

/-- C9 amended: the lean command on a platform and the backward command
on the rope are exact no-ops, while the strafe commands on the rope act
as the lean command, setting only the lean force. -/
theorem modeIrrelevantCommands (c : Character) (d : ℚ) :
    (c.isOnPlatform = true → adjustBalance d c = c) ∧
    (c.isOnPlatform = false →
      moveBackward c = c ∧
      moveLeft c = adjustBalance (-1) c ∧
      moveRight c = adjustBalance 1 c ∧
      (moveLeft c).balanceForce = -1 ∧
      (moveLeft c).position = c.position ∧
      (moveLeft c).state = c.state) := by
  constructor
  · intro hp
    unfold adjustBalance
    rw [if_neg (by rw [hp]; exact Bool.noConfusion)]
  · intro hr
    have hnp : ¬(c.isOnPlatform = true) := by
      rw [hr]; exact Bool.noConfusion
    refine ⟨?_, ?_, ?_, ?_, ?_, ?_⟩
    · unfold moveBackward; rw [if_neg hnp]
    · unfold moveLeft; rw [if_neg hnp]
    · unfold moveRight; rw [if_neg hnp]
    · unfold moveLeft
      rw [if_neg hnp]
      unfold adjustBalance
      rw [if_pos hr]
    · unfold moveLeft
      rw [if_neg hnp]
      unfold adjustBalance
      rw [if_pos hr]
    · unfold moveLeft
      rw [if_neg hnp]
      unfold adjustBalance
      rw [if_pos hr]

/-- C9 witness: the no-ops instantiated at the initial platform state
and at a quiet rope state. -/
theorem modeIrrelevantCommands_witness :
    adjustBalance 5 initialCharacter = initialCharacter ∧
    moveBackward ropeIdleCharacter = ropeIdleCharacter :=
  ⟨(modeIrrelevantCommands initialCharacter 5).1 rfl,
    ((modeIrrelevantCommands ropeIdleCharacter 5).2 rfl).1⟩

lemma playerForcePhase_balance_zero (o : Oracle) (dt : ℚ) (c : Character)
    (h : c.balanceForce = 0) : (playerForcePhase o dt c).balance = c.balance := by
  rw [playerForcePhase_balance, h, zero_mul, zero_mul, zero_div, add_zero]

lemma windForcePhase_balance_zero (dt : ℚ) (c : Character)
    (h : c.windEffect = 0) : (windForcePhase dt c).balance = c.balance := by
  rw [windForcePhase_balance, h, zero_mul, zero_mul, zero_mul, add_zero]

/-- A mid-rope FALLING state that is otherwise quiet. -/
def fallingRestCharacter : Character :=
  { initialCharacter with
      state := CState.FALLING, isOnPlatform := false, position := 1 / 2 }

unseal Rat.add Rat.sub Rat.mul Rat.inv in
/-- C2 counterexample: a trajectory built from the model operations
enters FALLING on the rope (lean held right for half a second saturates
the balance, and `updateState` sees `|balance| > 0.9`), and the very
next `update(0.5)` — with the lean released and no reset — leaves
FALLING again: the recovery force brings the balance to 0.65 and the
non-stepping branch rewrites the activity to BALANCING. -/
theorem fallingEscapeTrace :
    (update oracleHalf (1 / 2) (adjustBalance 1 (stopMoving
      (transitionToRope oracleHalf initialCharacter)))).state =
        CState.FALLING ∧
    (update oracleHalf (1 / 2) (adjustBalance 1 (stopMoving
      (transitionToRope oracleHalf initialCharacter)))).isOnPlatform =
        false ∧
    (update oracleHalf (1 / 2) (adjustBalance 0 (update oracleHalf (1 / 2)
      (adjustBalance 1 (stopMoving
        (transitionToRope oracleHalf initialCharacter)))))).state =
          CState.BALANCING := by
  decide

/-- C2 amended: FALLING on the rope is not preserved by the controller
itself.  On any non-stepping rope update from a FALLING state with the
forward intent released, a small balance, no lean force, no wind, and
the noise timer not yet due, the activity is recomputed from `|balance|`
and comes out IDLE — escaping FALLING without any reset.  (FALLING only
appears terminal because the game loop ends the session in the same
frame through `Physics.checkBalance`.) -/
theorem fallingRecoveryUpdate (o : Oracle) (dt : ℚ) (c : Character)
    (hrope : c.isOnPlatform = false) (hfall : c.state = CState.FALLING)
    (hts : c.takingStep = false) (hfw : c.isMovingForward = false)
    (hbal : |c.balance| ≤ 1 / 10) (hbf : c.balanceForce = 0)
    (hwind : c.windEffect = 0)
    (hnoise : ¬(balanceNoiseInterval ≤ c.balanceNoiseTimer + dt))
    (hpos : c.position < 98 / 100) :
    (update o dt c).state = CState.IDLE ∧
    (update o dt c).isOnPlatform = false := by
  unfold update
  rw [if_neg (by rw [hrope]; exact Bool.noConfusion)]
  have hsm : stepMovementPhase o dt c =
      idleStateStep (difficultyDecayStep dt (balanceRecoveryStep dt
        (newStepCheck o c))) := by
    unfold stepMovementPhase
    rw [if_neg (by rw [hts]; exact Bool.noConfusion)]
  rw [hsm, newStepCheck_skip o c hfw,
    balanceRecoveryStep_skip dt c (not_lt.mpr hbal)]
  set s1 := idleStateStep (difficultyDecayStep dt c) with hs1
  have hs1bal : s1.balance = c.balance := by
    rw [hs1, idleStateStep_balance, difficultyDecayStep_balance]
  have hs1state : s1.state = CState.IDLE := by
    rw [hs1]
    exact idleStateStep_state_idle _ (by
      rw [difficultyDecayStep_balance]
      exact not_lt.mpr (hbal.trans (by norm_num)))
  have hs1rope : s1.isOnPlatform = false := by
    rw [hs1, idleStateStep_isOnPlatform, difficultyDecayStep_isOnPlatform]
    exact hrope
  have hs1ts : s1.takingStep = false := by
    rw [hs1, idleStateStep_takingStep, difficultyDecayStep_takingStep]
    exact hts
  have hs1pos : s1.position = c.position := by
    rw [hs1, idleStateStep_position, difficultyDecayStep_position]
  have hs1bf : s1.balanceForce = 0 := by
    rw [hs1, idleStateStep_balanceForce, difficultyDecayStep_balanceForce]
    exact hbf
  have hs1wind : s1.windEffect = 0 := by
    rw [hs1, idleStateStep_windEffect, difficultyDecayStep_windEffect]
    exact hwind
  have hs1noise : ¬(balanceNoiseInterval ≤ s1.balanceNoiseTimer + dt) := by
    rw [hs1, idleStateStep_balanceNoiseTimer,
      difficultyDecayStep_balanceNoiseTimer]
    exact hnoise
  rw [balanceNoisePhase_skip o dt s1 hs1noise]
  set s2 : Character := { s1 with balanceNoiseTimer := s1.balanceNoiseTimer + dt }
  have hs2bal : (windForcePhase dt (playerForcePhase o dt s2)).balance =
      c.balance := by
    rw [windForcePhase_balance_zero dt _ (by
        show s2.windEffect = 0
        exact hs1wind),
      playerForcePhase_balance_zero o dt s2 (by
        show s2.balanceForce = 0
        exact hs1bf)]
    exact hs1bal
  have habs : -1 ≤ c.balance ∧ c.balance ≤ 1 := by
    have h1 := abs_le.mp hbal
    constructor <;> linarith [h1.1, h1.2]
  have hclamp : clampBalancePhase (windForcePhase dt (playerForcePhase o dt s2)) =
      windForcePhase dt (playerForcePhase o dt s2) :=
    clampBalancePhase_id _ (by rw [hs2bal]; exact habs.1)
      (by rw [hs2bal]; exact habs.2)
  rw [hclamp]
  set s3 := windForcePhase dt (playerForcePhase o dt s2) with hs3
  have hs3state : s3.state = CState.IDLE := by
    show s2.state = CState.IDLE
    exact hs1state
  have hs3rope : s3.isOnPlatform = false := by
    show s2.isOnPlatform = false
    exact hs1rope
  have hs3ts : s3.takingStep = false := by
    show s2.takingStep = false
    exact hs1ts
  have hs3pos : s3.position = c.position := by
    show s2.position = c.position
    exact hs1pos
  have hs3bal : |s3.balance| ≤ 1 / 2 := by
    rw [hs2bal]
    exact hbal.trans (by norm_num)
  have hus : (updateState s3).state = CState.IDLE :=
    updateState_state_idle s3 hs3rope
      (by rw [hs3state]; intro hcon; exact CState.noConfusion hcon)
      hs3ts hs3bal
  have hfinpos : (stepTimerPhase dt (updateState s3)).position = c.position := by
    rw [stepTimerPhase_position, updateState_position, hs3pos]
  rw [endCheckPhase_skip _ (by rw [hfinpos]; exact not_le.mpr hpos)]
  refine ⟨?_, ?_⟩
  · rw [stepTimerPhase_state]
    exact hus
  · rw [stepTimerPhase_isOnPlatform, updateState_isOnPlatform]
    exact hs3rope

unseal Rat.add Rat.sub Rat.mul Rat.inv in
/-- C2 witness: the FALLING escape instantiated at a quiet mid-rope
FALLING state with dt = 0.1. -/
theorem fallingRecoveryUpdate_witness :
    (update oracleHalf (1 / 10) fallingRestCharacter).state = CState.IDLE ∧
    (update oracleHalf (1 / 10) fallingRestCharacter).isOnPlatform = false :=
  fallingRecoveryUpdate oracleHalf (1 / 10) fallingRestCharacter rfl rfl rfl
    rfl (by decide) rfl rfl (by decide) (by decide)

lemma balanceRecoveryStep_takingStep (dt : ℚ) (c : Character) :
    (balanceRecoveryStep dt c).takingStep = c.takingStep := by
  unfold balanceRecoveryStep; split <;> rfl

lemma balanceRecoveryStep_stepTimer (dt : ℚ) (c : Character) :
    (balanceRecoveryStep dt c).stepTimer = c.stepTimer := by
  unfold balanceRecoveryStep; split <;> rfl

lemma balanceRecoveryStep_balanceDifficulty (dt : ℚ) (c : Character) :
    (balanceRecoveryStep dt c).balanceDifficulty = c.balanceDifficulty := by
  unfold balanceRecoveryStep; split <;> rfl

lemma balanceRecoveryStep_position (dt : ℚ) (c : Character) :
    (balanceRecoveryStep dt c).position = c.position := by
  unfold balanceRecoveryStep; split <;> rfl

lemma balanceRecoveryStep_isOnPlatform (dt : ℚ) (c : Character) :
    (balanceRecoveryStep dt c).isOnPlatform = c.isOnPlatform := by
  unfold balanceRecoveryStep; split <;> rfl

unseal Rat.add Rat.sub Rat.mul Rat.inv in
/-- C6 counterexample: the step started by the rope transition carries
no pending disturbance into its completion: with all random draws at
1/2 the balance stays 0 through the completing update (the claim's
completion-time disturbance of magnitude 0.1 × difficulty = 0.1 would
leave |balance| = 0.1), and `stepsTaken` is already 1 when the step
completes — it was incremented when the step started.  With the step
draw at its maximum 1, the actual disturbance applied at the start is
0.1 × difficulty × (1 − 0.5) = 0.05, not the claimed 0.1 ×
difficulty. -/
theorem stepDisturbanceTiming :
    (stopMoving (transitionToRope oracleHalf initialCharacter)).takingStep =
      true ∧
    (stopMoving (transitionToRope oracleHalf initialCharacter)).balance = 0 ∧
    (stopMoving (transitionToRope oracleHalf
      initialCharacter)).totalStepsTaken = 1 ∧
    (update oracleHalf (1 / 2) (stopMoving (transitionToRope oracleHalf
      initialCharacter))).takingStep = false ∧
    (update oracleHalf (1 / 2) (stopMoving (transitionToRope oracleHalf
      initialCharacter))).balance = 0 ∧
    (update oracleHalf (1 / 2) (stopMoving (transitionToRope oracleHalf
      initialCharacter))).totalStepsTaken = 1 ∧
    (transitionToRope oracleOne initialCharacter).balance = 1 / 20 := by
  decide

/-- C6 amended: every step increments `stepsTaken` and applies its
one-shot disturbance `0.1 × difficulty × (rand − 0.5 + 0.2 × wind)` at
the step START, inside `startNewStep`; at completion (`t ≥ 1`) no such
disturbance is applied (only, once more than 10 steps have been taken,
an extra wobble of `0.03 × difficulty × (rand − 0.5)`); if forward
intent is still held and the step target is below 0.98 the next step
starts immediately (incrementing the counter again), and otherwise the
movement block sets the activity to BALANCING. -/
theorem stepLifecycle (o : Oracle) (dt : ℚ) (c : Character)
    (hts : c.takingStep = true) (hcomp : stepTime ≤ c.stepTimer + dt) :
    ((startNewStep o c).totalStepsTaken = c.totalStepsTaken + 1 ∧
     (startNewStep o c).balance = c.balance +
       movementBalanceEffect * c.balanceDifficulty *
         (o.stepRand - 1 / 2 + c.windEffect * (1 / 5)) ∧
     (startNewStep o c).takingStep = true ∧
     (startNewStep o c).state = CState.WALKING) ∧
    ((c.isMovingForward = true ∧ c.stepTargetPosition < 98 / 100) →
      (stepMovementPhase o dt c).takingStep = true ∧
      (stepMovementPhase o dt c).totalStepsTaken = c.totalStepsTaken + 1) ∧
    (¬(c.isMovingForward = true ∧ c.stepTargetPosition < 98 / 100) →
      (stepMovementPhase o dt c).takingStep = false ∧
      (stepMovementPhase o dt c).state = CState.BALANCING ∧
      (c.totalStepsTaken ≤ 10 →
        (stepMovementPhase o dt c).balance = c.balance)) := by
  have hTpos : (0 : ℚ) < stepTime := by unfold stepTime; norm_num
  have hmin : min 1 ((c.stepTimer + dt) / stepTime) = 1 :=
    min_eq_left ((one_le_div hTpos).mpr hcomp)
  have heq1 : c.stepStartPosition +
      (c.stepTargetPosition - c.stepStartPosition) * easeInOutQuad 1 =
      c.stepTargetPosition := by
    rw [easeInOutQuad_one]; ring
  refine ⟨⟨startNewStep_totalStepsTaken o c, startNewStep_balance o c,
    startNewStep_takingStep o c, startNewStep_state o c⟩, ?_, ?_⟩
  · intro hfwd
    unfold stepMovementPhase
    dsimp only
    rw [if_pos hts, hmin, if_pos (le_refl (1 : ℚ)), heq1, if_pos hfwd]
    constructor
    · split
      · rw [startNewStep_takingStep]
      · rw [startNewStep_takingStep]
    · split
      · rw [startNewStep_totalStepsTaken]
      · rw [startNewStep_totalStepsTaken]
  · intro hnfwd
    unfold stepMovementPhase
    dsimp only
    rw [if_pos hts, hmin, if_pos (le_refl (1 : ℚ)), heq1, if_neg hnfwd]
    refine ⟨?_, ?_, ?_⟩
    · split <;> rfl
    · split <;> rfl
    · intro hsteps
      rw [if_neg (by omega : ¬(10 < c.totalStepsTaken))]

unseal Rat.add Rat.sub Rat.mul Rat.inv in
/-- C6 witness: the lifecycle instantiated at a mid-step rope state
whose step completes within the next 0.5 s update. -/
theorem stepLifecycle_witness :
    (startNewStep oracleHalf stepMidCharacter).totalStepsTaken =
      stepMidCharacter.totalStepsTaken + 1 :=
  (stepLifecycle oracleHalf (1 / 2) stepMidCharacter rfl (by decide)).1.1

lemma stepMovementPhase_bd_mono (o : Oracle) (dt : ℚ) (c : Character)
    (hts : c.takingStep = true)
    (hbd : c.balanceDifficulty ≤ targetDifficulty c.totalStepsTaken) :
    c.balanceDifficulty ≤ (stepMovementPhase o dt c).balanceDifficulty := by
  unfold stepMovementPhase
  dsimp only
  rw [if_pos hts]
  split
  · split
    · split
      · exact startNewStep_bd_mono o _ hbd
      · exact startNewStep_bd_mono o _ hbd
    · split
      · exact le_refl _
      · exact le_refl _
  · exact le_refl _

/-- C8: amended difficulty dynamics.  In every reachable state the
difficulty sits in [1, maxDifficulty]; `startNewStep` and any update
taken while a step is in flight (that ends still on the rope) never
decrease it; and once the avatar has been stationary for more than 2
seconds (no step in flight, forward intent released, still short of the
rope end) an update sets it to `max 1 (difficulty − 0.3·dt)` — which
never increases it, and strictly decreases it exactly while the
difficulty is still above 1 and dt > 0 (at difficulty 1 it stays 1, so
the claimed unconditional strict decrease fails). -/
theorem difficultyDynamics (o : Oracle) (dt : ℚ) (c : Character)
    (hr : Reachable c) (hdt : 0 ≤ dt) :
    (1 ≤ c.balanceDifficulty ∧ c.balanceDifficulty ≤ maxBalanceDifficulty) ∧
    c.balanceDifficulty ≤ (startNewStep o c).balanceDifficulty ∧
    (c.takingStep = true → (update o dt c).isOnPlatform = false →
      c.balanceDifficulty ≤ (update o dt c).balanceDifficulty) ∧
    (c.isOnPlatform = false → c.takingStep = false →
      c.isMovingForward = false → 2 < c.stepTimer → c.position < 98 / 100 →
      ((update o dt c).balanceDifficulty =
        max 1 (c.balanceDifficulty - dt * (3 / 10)) ∧
       (update o dt c).balanceDifficulty ≤ c.balanceDifficulty ∧
       (1 < c.balanceDifficulty → 0 < dt →
        (update o dt c).balanceDifficulty < c.balanceDifficulty))) := by
  obtain ⟨h1, h2, h3, h4, h5, h6, h7, h8, h9⟩ := reachable_inv hr
  refine ⟨⟨h7, h8.trans (targetDifficulty_le_max _)⟩,
    startNewStep_bd_mono o c h8, ?_, ?_⟩
  · intro htsc hop
    by_cases hplat : c.isOnPlatform = true
    · unfold update at hop ⊢
      rw [if_pos hplat]
    · have hrope : c.isOnPlatform = false := by
        revert hplat; cases c.isOnPlatform <;> simp
      unfold update at hop ⊢
      rw [if_neg (by rw [hrope]; exact Bool.noConfusion)] at hop ⊢
      have hm := stepMovementPhase_bd_mono o dt c htsc h8
      have hybd : (stepTimerPhase dt (updateState (clampBalancePhase
          (windForcePhase dt (playerForcePhase o dt (balanceNoisePhase o dt
            (stepMovementPhase o dt c))))))).balanceDifficulty =
          (stepMovementPhase o dt c).balanceDifficulty := by
        rw [stepTimerPhase_balanceDifficulty, updateState_balanceDifficulty]
        show (balanceNoisePhase o dt (stepMovementPhase o dt c)).balanceDifficulty = _
        exact balanceNoisePhase_balanceDifficulty o dt _
      by_cases hend : 98 / 100 ≤ (stepTimerPhase dt (updateState
          (clampBalancePhase (windForcePhase dt (playerForcePhase o dt
            (balanceNoisePhase o dt (stepMovementPhase o dt c))))))).position
      · exfalso
        unfold endCheckPhase at hop
        rw [if_pos hend] at hop
        exact Bool.noConfusion hop
      · rw [show ∀ x : Character, ¬(98 / 100 ≤ x.position) →
            endCheckPhase x = x from fun x hx => endCheckPhase_skip x hx]
        · rw [hybd]
          exact hm
        · exact hend
  · intro hrope htsf hfwf htimer hposlt
    unfold update
    rw [if_neg (by rw [hrope]; exact Bool.noConfusion)]
    have hsm : stepMovementPhase o dt c =
        idleStateStep (difficultyDecayStep dt (balanceRecoveryStep dt
          (newStepCheck o c))) := by
      unfold stepMovementPhase
      rw [if_neg (by rw [htsf]; exact Bool.noConfusion)]
    rw [hsm, newStepCheck_skip o c hfwf]
    have hdecay : (difficultyDecayStep dt (balanceRecoveryStep dt c)).balanceDifficulty =
        max 1 (c.balanceDifficulty - dt * (3 / 10)) := by
      rw [difficultyDecayStep_fire dt _
        (by rw [balanceRecoveryStep_takingStep]; exact htsf)
        (by rw [balanceRecoveryStep_stepTimer]; exact htimer),
        balanceRecoveryStep_balanceDifficulty]
    have hfinbd : ∀ x : Character,
        (stepTimerPhase dt (updateState (clampBalancePhase (windForcePhase dt
          (playerForcePhase o dt (balanceNoisePhase o dt x)))))).balanceDifficulty =
        x.balanceDifficulty := by
      intro x
      rw [stepTimerPhase_balanceDifficulty, updateState_balanceDifficulty]
      show (balanceNoisePhase o dt x).balanceDifficulty = _
      exact balanceNoisePhase_balanceDifficulty o dt x
    have hfinpos : (stepTimerPhase dt (updateState (clampBalancePhase
        (windForcePhase dt (playerForcePhase o dt (balanceNoisePhase o dt
          (idleStateStep (difficultyDecayStep dt
            (balanceRecoveryStep dt c))))))))).position = c.position := by
      rw [stepTimerPhase_position, updateState_position]
      show (balanceNoisePhase o dt _).position = _
      rw [balanceNoisePhase_position, idleStateStep_position,
        difficultyDecayStep_position, balanceRecoveryStep_position]
    rw [endCheckPhase_skip _ (by rw [hfinpos]; exact not_le.mpr hposlt)]
    rw [hfinbd, idleStateStep_balanceDifficulty, hdecay]
    refine ⟨rfl, max_le h7 (by linarith), ?_⟩
    intro hgt hdtpos
    exact max_lt (by linarith) (by linarith)

/-- C8 witness: the dynamics instantiated just after stepping onto the
rope. -/
theorem difficultyDynamics_witness :
    1 ≤ (transitionToRope oracleHalf initialCharacter).balanceDifficulty ∧
    (transitionToRope oracleHalf initialCharacter).balanceDifficulty ≤
      maxBalanceDifficulty :=
  (difficultyDynamics oracleHalf (1 / 10) _
    (Reachable.transitionToRope oracleHalf initialCharacter Reachable.init)
    (by norm_num)).1

unseal Rat.add Rat.sub Rat.mul Rat.inv in
/-- C8 counterexample: a trajectory built from the model operations
ends stationary on the rope with difficulty 1 and more than 2 s on the
idle timer, and the next update leaves the difficulty at 1 — the
claimed strict decrease after 2 s of idleness fails at the lower
bound. -/
theorem difficultyRestNoDecrease :
    (update oracleHalf (3 / 2) (update oracleHalf (1 / 2) (stopMoving
      (transitionToRope oracleHalf initialCharacter)))).balanceDifficulty =
        1 ∧
    (update oracleHalf (3 / 2) (update oracleHalf (1 / 2) (stopMoving
      (transitionToRope oracleHalf initialCharacter)))).takingStep = false ∧
    (update oracleHalf (3 / 2) (update oracleHalf (1 / 2) (stopMoving
      (transitionToRope oracleHalf initialCharacter)))).isOnPlatform =
        false ∧
    (update oracleHalf (3 / 2) (update oracleHalf (1 / 2) (stopMoving
      (transitionToRope oracleHalf initialCharacter)))).isMovingForward =
        false ∧
    2 < (update oracleHalf (3 / 2) (update oracleHalf (1 / 2) (stopMoving
      (transitionToRope oracleHalf initialCharacter)))).stepTimer ∧
    (update oracleHalf (1 / 10) (update oracleHalf (3 / 2) (update oracleHalf
      (1 / 2) (stopMoving (transitionToRope oracleHalf
        initialCharacter))))).balanceDifficulty = 1 := by
  decide

set_option maxRecDepth 1000000 in
unseal Rat.add Rat.sub Rat.mul Rat.inv in
/-- C4 counterexample: with the default constants, forward intent held
continuously from the rope start, zeroed random draws and dt = 0.1, the
deterministic trajectory first reaches `ropeProgress ≥ 0.98` DURING the
33rd step, not after 33 completed steps: after 162 updates (16.2 s) the
33rd step is still in flight (`totalStepsTaken = 33` counts steps
STARTED) at progress 0.9696 < 0.98, and the 163rd update (16.3 s)
crosses 0.98 mid-step and transitions to the end platform — before the
33 × 0.5 s = 16.5 s the claim requires for 33 completed steps. -/
theorem ropeCrossingEarly :
    (updateN oracleHalf (1 / 10) 162 (transitionToRope oracleHalf
      initialCharacter)).takingStep = true ∧
    (updateN oracleHalf (1 / 10) 162 (transitionToRope oracleHalf
      initialCharacter)).totalStepsTaken = 33 ∧
    (updateN oracleHalf (1 / 10) 162 (transitionToRope oracleHalf
      initialCharacter)).position = 606 / 625 ∧
    ((606 : ℚ) / 625 < 98 / 100) ∧
    (updateN oracleHalf (1 / 10) 163 (transitionToRope oracleHalf
      initialCharacter)).isOnPlatform = true ∧
    (updateN oracleHalf (1 / 10) 163 (transitionToRope oracleHalf
      initialCharacter)).position = 1 ∧
    ((163 : ℚ) * (1 / 10) < 33 * stepTime) := by
  decide

set_option maxRecDepth 1000000 in
unseal Rat.add Rat.sub Rat.mul Rat.inv in
/-- C4 amended: under forward intent held continuously from
`ropeProgress = 0` with zeroed disturbances and dt = 0.1, the rope
progress stays below 0.98 through the first 162 updates — 32 completed
steps (16 s) plus 0.2 s of the 33rd step — and the 163rd update (16.3 s
of simulated time, during the 33rd started step) is the first to reach
0.98: it crosses mid-step and immediately transitions the avatar to the
end platform. -/
theorem ropeCrossingTiming :
    (∀ k : ℕ, k ≤ 162 → (updateN oracleHalf (1 / 10) k
      (transitionToRope oracleHalf initialCharacter)).position <
        98 / 100) ∧
    (updateN oracleHalf (1 / 10) 162 (transitionToRope oracleHalf
      initialCharacter)).takingStep = true ∧
    (updateN oracleHalf (1 / 10) 162 (transitionToRope oracleHalf
      initialCharacter)).totalStepsTaken = 33 ∧
    (updateN oracleHalf (1 / 10) 163 (transitionToRope oracleHalf
      initialCharacter)).isOnPlatform = true ∧
    (updateN oracleHalf (1 / 10) 163 (transitionToRope oracleHalf
      initialCharacter)).position = 1 := by
  have h162 : (updateN oracleHalf (1 / 10) 162 (transitionToRope oracleHalf
      initialCharacter)).position = 606 / 625 := by decide
  refine ⟨?_, by decide, by decide, by decide, by decide⟩
  intro k hk
  have hInv : Inv (transitionToRope oracleHalf initialCharacter) :=
    inv_transitionToRope oracleHalf initialCharacter inv_initialCharacter
  have hk2 := position_le_updateN oracleHalf (1 / 10) (162 - k)
    (updateN oracleHalf (1 / 10) k (transitionToRope oracleHalf
      initialCharacter)) (by norm_num)
    (inv_updateN oracleHalf (1 / 10) k _ (by norm_num) hInv)
  rw [updateN_comp, Nat.add_sub_cancel' hk, h162] at hk2
  calc (updateN oracleHalf (1 / 10) k (transitionToRope oracleHalf
      initialCharacter)).position ≤ 606 / 625 := hk2
    _ < 98 / 100 := by norm_num

/-- C4 witness: the below-threshold bound instantiated at k = 100
(10 s in, during the 21st step). -/
theorem ropeCrossingTiming_witness :
    (updateN oracleHalf (1 / 10) 100 (transitionToRope oracleHalf
      initialCharacter)).position < 98 / 100 :=
  ropeCrossingTiming.1 100 (by norm_num)

end TightropeWalker
